import Mathlib

set_option linter.unusedVariables false

set_option linter.unnecessarySeqFocus false

/-! Shallow embedding of the reconciliation engine of `plugins/modules/ovh.py`
(class `OVHModule`).  Each handler method is translated into a pure Lean
function from an explicit environment (the responses the remote gateway
would give) to a result of type `HRes`: an `Except String Outcome`
(`Except.error e` models an *uncaught* Python exception propagating out of
the handler, `Except.ok o` the `(error, changed, result)` triple produced by
`fail`/`succeed`) together with the ordered trace of gateway calls and
sleeps performed.  Parameters with Python default `None` are modelled as
`String` with `""` for the falsy absent value. -/

/-- One remote gateway call, with its resource path and, for mutating
calls, a rendering of the request body. -/
inductive GwCall where
  | get : String → GwCall
  | post : String → List String → GwCall
  | put : String → List String → GwCall
  | delete : String → GwCall
deriving DecidableEq, Repr

/-- One observable step of a handler: a gateway call or a delay sleep. -/
inductive Event where
  | call : GwCall → Event
  | sleep : Event
deriving DecidableEq, Repr

/-- A post, put or delete is a mutating gateway call; a get is not. -/
def Event.isMutating : Event → Bool
  | .call (.post _ _) => true
  | .call (.put _ _) => true
  | .call (.delete _) => true
  | _ => false

/-- The mutating calls of a trace, in order. -/
def mutCalls (tr : List Event) : List Event := tr.filter Event.isMutating

def Event.isSleep : Event → Bool
  | .sleep => true
  | _ => false

/-- Number of delay sleeps in a trace. -/
def sleepCount (tr : List Event) : Nat := (tr.filter Event.isSleep).length

/-- The `(error, changed, result)` triple returned by `OVHModule.run`,
with the `result` dict's possible keys `msg`, `contents`, `objects`. -/
structure Outcome where
  error : Option String
  changed : Bool
  msg : Option String
  contents : Option String
  objects : Option (List String)
deriving DecidableEq, Repr

/-- `OVHModule.fail`: error message, `changed=False`, empty result. -/
def failOut (m : String) : Outcome := ⟨some m, false, none, none, none⟩

/-- `OVHModule.succeed` with a message. -/
def okMsg (m : String) (c : Bool) : Outcome := ⟨none, c, some m, none, none⟩

/-- `OVHModule.succeed` with `message=None` and `contents`. -/
def okContents (c : String) (ch : Bool) : Outcome := ⟨none, ch, none, some c, none⟩

/-- `OVHModule.succeed` with `message=None`, `changed=False` and `objects`. -/
def okObjects (o : List String) : Outcome := ⟨none, false, none, none, some o⟩

/-- Handler result: uncaught exception or outcome, plus the event trace. -/
abbrev HRes := Except String Outcome × List Event

deriving instance DecidableEq for Except

/-- The ubiquitous `"Failed to call OVH API: {0}".format(api_error)`. -/
def apiFail (e : String) : Outcome := failOut ("Failed to call OVH API: " ++ e)

/-- Does the second character list start with the first? -/
def charsStart : List Char → List Char → Bool
  | [], _ => true
  | _ :: _, [] => false
  | a :: as, b :: bs => a == b && charsStart as bs

/-- Does the character list contain `pat` as a contiguous sublist? -/
def charsHave (pat : List Char) : List Char → Bool
  | [] => pat.isEmpty
  | c :: rest => charsStart pat (c :: rest) || charsHave pat rest

/-- Python's substring test `pat in s`. -/
def strHas (s pat : String) : Bool := charsHave pat.toList s.toList

/-- Python's `sep.join(l)`. -/
def joinWith (sep : String) : List String → String
  | [] => ""
  | [x] => x
  | x :: y :: rest => x ++ sep ++ joinWith sep (y :: rest)

/-- Python's `str` rendering of a boolean. -/
def pyBool : Bool → String
  | true => "True"
  | false => "False"

/-! Resource paths, mirroring the format strings of the source. -/

def serverPath (name : String) : String := "/dedicated/server/" ++ name

def zoneRecordPath (domain : String) : String := "/domain/zone/" ++ domain ++ "/record"

def recordPath (domain : String) (ind : Nat) : String :=
  zoneRecordPath domain ++ "/" ++ toString ind

def refreshPath (domain : String) : String := "/domain/zone/" ++ domain ++ "/refresh"

def rebootPath (name : String) : String := serverPath name ++ "/reboot"

def terminatePath (name : String) : String := serverPath name ++ "/terminate"

def taskListPath (name : String) : String := serverPath name ++ "/task"

def taskPath (name : String) (i : Nat) : String := taskListPath name ++ "/" ++ toString i

def installStatusPath (name : String) : String := serverPath name ++ "/install/status"

def installStartPath (name : String) : String := serverPath name ++ "/install/start"

def compatibleTemplatesPath (name : String) : String :=
  serverPath name ++ "/install/compatibleTemplates"

def hwRaidProfilePath (name : String) : String :=
  serverPath name ++ "/install/hardwareRaidProfile"

def nicPath (name : String) (linkType : String) : String :=
  serverPath name ++ "/networkInterfaceController?linkType=" ++ linkType

def reverseGetPath (ip : String) : String := "/ip/" ++ ip ++ "/reverse/" ++ ip

def reversePostPath (ip : String) : String := "/ip/" ++ ip ++ "/reverse"

def vniPath (name : String) : String := serverPath name ++ "/virtualNetworkInterface"

def vrackInterfaceDetailsPath (v : String) : String :=
  "/vrack/" ++ v ++ "/dedicatedServerInterfaceDetails"

def vrackInterfacePath (v : String) : String :=
  "/vrack/" ++ v ++ "/dedicatedServerInterface"

def vrackLegacyPath (v : String) : String := "/vrack/" ++ v ++ "/dedicatedServer"

def tplPath (t : String) : String := "/me/installationTemplate/" ++ t

def tplSchemePath (t s : String) : String := tplPath t ++ "/partitionScheme"

def tplRaidPath (t s : String) : String :=
  tplPath t ++ "/partitionScheme/" ++ s ++ "/hardwareRaid"

def tplPartitionPath (t s : String) : String :=
  tplPath t ++ "/partitionScheme/" ++ s ++ "/partition"

def tplCheckPath (t : String) : String := tplPath t ++ "/checkIntegrity"

/-! ## DNS (`OVHModule.change_dns`) -/

/-- The fields of a fetched DNS record inspected by the source. -/
structure DnsRecord where
  subDomain : String
  target : String
deriving DecidableEq, Repr

/-- Gateway responses consumed by `change_dns`: the zone record-id query,
the per-id record fetch, and the results of the mutating calls. -/
structure DnsEnv where
  records : Except String (List Nat)
  record : Nat → Except String DnsRecord
  refreshRes : Except String Unit
  putRes : Nat → Except String Unit
  postRes : Except String String
  deleteRes : Nat → Except String Unit

/-- Result of the `for ind in existing_records` scan in the
`state == 'present'` branch: first API error, first record matching
`(subDomain, target) == (name, ip)`, or no match at all. -/
inductive DnsScan where
  | apiErr : String → DnsScan
  | matched : DnsScan
  | nomatch : DnsScan
deriving DecidableEq, Repr

/-- The scan loop of the present branch: fetch each candidate record,
return `matched` on the first record equal to the desired pair, abort on
the first API error, otherwise fall through. -/
def dnsScan (env : DnsEnv) (domain name ip : String) : List Nat → DnsScan × List Event
  | [] => (.nomatch, [])
  | ind :: rest =>
    match env.record ind with
    | .error e => (.apiErr e, [.call (.get (recordPath domain ind))])
    | .ok r =>
      if r.subDomain = name ∧ r.target = ip then
        (.matched, [.call (.get (recordPath domain ind))])
      else
        let x := dnsScan env domain name ip rest
        (x.1, .call (.get (recordPath domain ind)) :: x.2)

/-- The delete loop of the `state == 'absent'` branch: one get and one
delete per matching id, aborting on the first API error, collecting the
`"%s IN A %s"` strings. -/
def dnsDelete (env : DnsEnv) (domain : String) :
    List Nat → Except String (List String) × List Event
  | [] => (.ok [], [])
  | ind :: rest =>
    match env.record ind with
    | .error e => (.error e, [.call (.get (recordPath domain ind))])
    | .ok r =>
      match env.deleteRes ind with
      | .error e =>
        (.error e,
         [.call (.get (recordPath domain ind)), .call (.delete (recordPath domain ind))])
      | .ok _ =>
        let x := dnsDelete env domain rest
        (Except.map (fun l => (r.subDomain ++ " IN A " ++ r.target) :: l) x.1,
         .call (.get (recordPath domain ind)) :: .call (.delete (recordPath domain ind))
           :: x.2)

/-- The success message of the DNS record update. -/
def dnsPutMsg (ind : Nat) (name ip domain : String) : String :=
  "\x7b \"fieldType\": \"A\", \"id\": \"" ++ toString ind ++ "\", \"subDomain\": \"" ++
    name ++ "\", \"target\": \"" ++ ip ++ "\", \"zone\": \"" ++ domain ++ "\" \x7d "

/-- The ambiguity gate message of `change_dns`. -/
def dnsAmbiguousMsg (name domain : String) : String :=
  "More than one record match the name " ++ name ++ " in domain " ++ domain ++
    ", this module won\x27t update all of these records."

/-- `OVHModule.change_dns`. -/
def change_dns (env : DnsEnv) (checkMode : Bool) (domain ip name state : String) : HRes :=
  if domain = "" then (.ok (failOut "Please give a domain to add your target"), [])
  else if name = "refresh" then
    if checkMode then
      (.ok (okMsg ("Domain " ++ domain ++ " succesfully refreshed! - (dry run mode)") true),
       [])
    else
      match env.refreshRes with
      | .ok _ =>
        (.ok (okMsg ("Domain " ++ domain ++ " succesfully refreshed !") true),
         [.call (.post (refreshPath domain) [])])
      | .error e => (.ok (apiFail e), [.call (.post (refreshPath domain) [])])
  else if checkMode then
    (.ok (okMsg ("DNS succesfully " ++ state ++ " on " ++ name ++ "s - (dry run mode)") true),
     [])
  else
    let ev0 := Event.call (.get (zoneRecordPath domain))
    match env.records with
    | .error e => (.ok (apiFail e), [ev0])
    | .ok existing =>
      if state = "present" then
        if ip = "" then (.ok (failOut "Please give an IP to add your target"), [ev0])
        else
          match existing with
          | [] =>
            match env.postRes with
            | .ok res =>
              (.ok (okContents res true), [ev0, .call (.post (zoneRecordPath domain)
                 ["fieldType=A", "subDomain=" ++ name, "target=" ++ ip])])
            | .error e =>
              (.ok (apiFail e), [ev0, .call (.post (zoneRecordPath domain)
                 ["fieldType=A", "subDomain=" ++ name, "target=" ++ ip])])
          | ind0 :: rest =>
            let s := dnsScan env domain name ip (ind0 :: rest)
            match s.1 with
            | .apiErr e => (.ok (apiFail e), ev0 :: s.2)
            | .matched =>
              (.ok (okMsg (name ++ " is already registered in domain " ++ domain) false),
               ev0 :: s.2)
            | .nomatch =>
              if (ind0 :: rest).length > 1 then
                (.ok (failOut (dnsAmbiguousMsg name domain)), ev0 :: s.2)
              else
                match env.putRes ind0 with
                | .ok _ =>
                  (.ok (okMsg (dnsPutMsg ind0 name ip domain) true),
                   ev0 :: s.2 ++ [.call (.put (recordPath domain ind0)
                     ["subDomain=" ++ name, "target=" ++ ip])])
                | .error e =>
                  (.ok (apiFail e),
                   ev0 :: s.2 ++ [.call (.put (recordPath domain ind0)
                     ["subDomain=" ++ name, "target=" ++ ip])])
      else if state = "absent" then
        match existing with
        | [] =>
          (.ok (okMsg ("Target " ++ name ++ " doesn\x27t exist on domain " ++ domain)
             false), [ev0])
        | ind0 :: rest =>
          let d := dnsDelete env domain (ind0 :: rest)
          match d.1 with
          | .ok deleted =>
            (.ok (okMsg (joinWith "," deleted ++ " successfuly deleted from domain " ++
               domain) true), ev0 :: d.2)
          | .error e => (.ok (apiFail e), ev0 :: d.2)
      else
        (.ok (failOut "unsupported state"), [ev0])

/-! ## get_mac (`OVHModule.get_mac`) -/

/-- Gateway response consumed by `get_mac`. -/
structure MacEnv where
  nic : Except String (List String)

/-- `OVHModule.get_mac`: a single get, *not* wrapped in try/except — an
API error propagates as an uncaught exception. -/
def get_mac (env : MacEnv) (name linkType : String) : HRes :=
  match env.nic with
  | .error e => (.error e, [.call (.get (nicPath name linkType))])
  | .ok r => (.ok (okMsg (joinWith "," r) false), [.call (.get (nicPath name linkType))])

/-! ## terminate (`OVHModule.terminate_server`) -/

structure TerminateEnv where
  terminateRes : Except String Unit

/-- `OVHModule.terminate_server`. -/
def terminate_server (env : TerminateEnv) (checkMode : Bool) (name : String) : HRes :=
  if name = "" then (.ok (failOut "Please give a dedicated name to terminate"), [])
  else if checkMode then
    (.ok (okMsg ("Terminate " ++ name ++
       " is done, please confirm via the email sent - (dry run mode)") true), [])
  else
    match env.terminateRes with
    | .ok _ =>
      (.ok (okMsg ("Terminate " ++ name ++
         " is done, please confirm via the email sent") true),
       [.call (.post (terminatePath name) [])])
    | .error e => (.ok (apiFail e), [.call (.post (terminatePath name) [])])

/-! ## install status poll (`OVHModule.get_status_install`) -/

/-- Gateway responses consumed by one attempt `i` of the status loop:
the wrapped `task`-list and `task`-detail gets (the latter abstracted to
the `status` string of task `max(tasklist)`), and the *unwrapped*
`install/status` progress get. -/
structure StatusEnv where
  tasklist : Nat → Except String (List Nat)
  task : Nat → Except String String
  progress : Nat → Except String Unit

/-- Python's `max` over a list of ints (the task ids are naturals). -/
def listMax (l : List Nat) : Nat := l.foldl Nat.max 0

/-- The retry-exhaustion message `"Max wait time reached, about %i x %i
seconds" % (i, int(sleep))`. -/
def exhaustMsg (i sleep : Nat) : String :=
  "Max wait time reached, about " ++ toString i ++ " x " ++ toString sleep ++ " seconds"

/-- The body of `for i in range(1, int(max_retry))` of
`get_status_install`, with `fuel` the number of remaining iterations and
`i` the current loop index (so the call of the source is `fuel =
max_retry - 1`, `i = 1`).  At `fuel = 0` the source's final `fail` reads
the loop variable `i`, a `NameError` if the loop never ran; otherwise it
reports the *last executed* index `i - 1`.  An empty task list makes
Python's `max([])` raise an uncaught `ValueError`; a failure of the
unwrapped `install/status` get is likewise uncaught. -/
def statusLoop (env : StatusEnv) (name : String) (sleep : Nat) :
    Nat → Nat → HRes
  | 0, i =>
    if i = 1 then (.error "NameError: name \x27i\x27 is not defined", [])
    else (.ok (failOut (exhaustMsg (i - 1) sleep)), [])
  | fuel + 1, i =>
    match env.tasklist i with
    | .error e => (.ok (apiFail e), [.call (.get (taskListPath name))])
    | .ok l =>
      if l = [] then
        (.error "ValueError: max() arg is an empty sequence",
         [.call (.get (taskListPath name))])
      else
        match env.task i with
        | .error e =>
          (.ok (apiFail e),
           [.call (.get (taskListPath name)), .call (.get (taskPath name (listMax l)))])
        | .ok st =>
          if strHas st "done" then
            (.ok (okMsg (st ++ ": ") false),
             [.call (.get (taskListPath name)), .call (.get (taskPath name (listMax l)))])
          else
            match env.progress i with
            | .error e =>
              (.error e,
               [.call (.get (taskListPath name)),
                .call (.get (taskPath name (listMax l))),
                .call (.get (installStatusPath name))])
            | .ok _ =>
              let x := statusLoop env name sleep fuel (i + 1)
              (x.1,
               .call (.get (taskListPath name)) ::
               .call (.get (taskPath name (listMax l))) ::
               .call (.get (installStatusPath name)) :: .sleep :: x.2)

/-- `OVHModule.get_status_install`. -/
def get_status_install (env : StatusEnv) (checkMode : Bool) (name : String)
    (max_retry sleep : Nat) : HRes :=
  if name = "" then
    (.ok (failOut
      "Please provide \x27ns\x27 server name from which installation status will be check"),
     [])
  else if checkMode then (.ok (okMsg "done - (dry run mode)" false), [])
  else statusLoop env name sleep (max_retry - 1) 1

/-! ## install (`OVHModule.launch_install`) -/

/-- Gateway responses consumed by `launch_install`: the flattened set of
compatible template names, the account's SSH key names, and the result of
the install-start post. -/
structure InstallEnv where
  compatibleTemplates : Except String (List String)
  sshKeys : Except String (List String)
  postRes : Except String Unit

/-- `OVHModule.launch_install`. -/
def launch_install (env : InstallEnv) (checkMode : Bool)
    (name template hostname ssh_key_name post_link : String)
    (use_distrib_kernel : Bool) : HRes :=
  if name = "" then
    (.ok (failOut "Please give the service\x27s name you want to install"), [])
  else if template = "" then (.ok (failOut "Please give a template to install"), [])
  else if hostname = "" then
    (.ok (failOut "Please give a hostname for your installation"), [])
  else
    let ev0 := Event.call (.get (compatibleTemplatesPath name))
    match env.compatibleTemplates with
    | .error e => (.ok (apiFail e), [ev0])
    | .ok tpls =>
      if ¬ template ∈ tpls then
        (.ok (failOut (template ++ " doesn\x27t exist in compatibles templates")), [ev0])
      else if checkMode then
        (.ok (okMsg ("Installation in progress on " ++ name ++ " ! - (dry run mode)")
           true), [ev0])
      else
        let afterSsh : Except String (List String × List Event) :=
          if ssh_key_name ≠ "" then
            match env.sshKeys with
            | .error e => .error ("Failed to call OVH API: " ++ e)
            | .ok keys =>
              if ¬ ssh_key_name ∈ keys then
                .error (ssh_key_name ++ " doesn\x27t exist in public SSH keys")
              else .ok (["sshKeyName=" ++ ssh_key_name], [.call (.get "/me/sshKey")])
          else .ok ([], [])
        match afterSsh with
        | .error m => (.ok (failOut m),
            ev0 :: (if ssh_key_name ≠ "" then [Event.call (.get "/me/sshKey")] else []))
        | .ok (sshBody, sshEv) =>
          let body := ["templateName=" ++ template, "customHostname=" ++ hostname] ++
            sshBody ++
            (if use_distrib_kernel then ["useDistribKernel=True"] else []) ++
            (if post_link ≠ "" then ["postInstallationScriptLink=" ++ post_link] else [])
          match env.postRes with
          | .ok _ =>
            (.ok (okMsg ("Installation in progress on " ++ name ++ " !") true),
             ev0 :: sshEv ++ [.call (.post (installStartPath name) body)])
          | .error e =>
            (.ok (apiFail e),
             ev0 :: sshEv ++ [.call (.post (installStartPath name) body)])

/-! ## monitoring (`OVHModule.change_monitoring`) -/

/-- Gateway responses of the monitoring loop: the flag observed by the
(unwrapped) server get at attempt `i`, and the result of the (wrapped)
put at attempt `i`. -/
structure MonEnv where
  state : Nat → Except String Bool
  putRes : Nat → Except String Unit

/-- The success message of the monitoring loop. -/
def monMsg (shouldbe : Bool) (name : String) (i : Nat) : String :=
  if shouldbe then
    "Monitoring activated on " ++ name ++ " after " ++ toString i ++ " time(s)"
  else
    "Monitoring deactivated on " ++ name ++ " after " ++ toString i ++ " time(s)"

/-- The body of `for i in range(1, int(max_retry))` of
`change_monitoring` (`fuel = max_retry - 1`, `i = 1` at the call site):
fetch the server state (unwrapped get — an API error is an uncaught
exception); if the flag equals the desired value succeed with
`changed=True`; otherwise put the desired value (wrapped) and sleep. -/
def monLoop (env : MonEnv) (name : String) (shouldbe : Bool) :
    Nat → Nat → HRes
  | 0, _ => (.ok (failOut "Could not change monitoring flag"), [])
  | fuel + 1, i =>
    match env.state i with
    | .error e => (.error e, [.call (.get (serverPath name))])
    | .ok flag =>
      if flag = shouldbe then
        (.ok (okMsg (monMsg shouldbe name i) true), [.call (.get (serverPath name))])
      else
        match env.putRes i with
        | .error e =>
          (.ok (apiFail e),
           [.call (.get (serverPath name)),
            .call (.put (serverPath name) ["monitoring=" ++ pyBool shouldbe])])
        | .ok _ =>
          let x := monLoop env name shouldbe fuel (i + 1)
          (x.1,
           .call (.get (serverPath name)) ::
           .call (.put (serverPath name) ["monitoring=" ++ pyBool shouldbe]) ::
           .sleep :: x.2)

/-- `OVHModule.change_monitoring`. -/
def change_monitoring (env : MonEnv) (checkMode : Bool) (name state : String)
    (max_retry sleep : Nat) : HRes :=
  if name = "" then (.ok (failOut "Please give a name to change monitoring state"), [])
  else if state = "" then (.ok (failOut "Please give a state for your monitoring"), [])
  else if state = "present" ∨ state = "absent" then
    let shouldbe := state = "present"
    if checkMode then
      (.ok (okMsg ("Monitoring " ++ state ++ " on " ++ name ++ " - (dry run mode)") true),
       [])
    else monLoop env name shouldbe (max_retry - 1) 1
  else
    (.ok (failOut ("State " ++ state ++
       " does not match \x27present\x27 or \x27absent\x27")), [])

/-! ## reverse (`OVHModule.change_reverse`) -/

/-- Result of the reverse lookup: the only caught exception is
`ResourceNotFoundError` (which yields an empty reverse value); any other
API error is uncaught. -/
inductive ReverseLookup where
  | found : String → ReverseLookup
  | notFound : ReverseLookup
  | apiErr : String → ReverseLookup

structure ReverseEnv where
  lookup : ReverseLookup
  postRes : Except String Unit

/-- `OVHModule.change_reverse`. -/
def change_reverse (env : ReverseEnv) (checkMode : Bool) (name domain ip : String) :
    HRes :=
  if domain = "" then (.ok (failOut "Please give a domain to add your target"), [])
  else if ip = "" then (.ok (failOut "Please give an IP to add your target"), [])
  else
    let fqdn := name ++ "." ++ domain ++ "."
    let ev0 := Event.call (.get (reverseGetPath ip))
    match env.lookup with
    | .apiErr e => (.error e, [ev0])
    | lk =>
      let current := match lk with
        | .found v => v
        | _ => ""
      if current = fqdn then (.ok (okMsg "Reverse already set" false), [ev0])
      else if checkMode then
        (.ok (okMsg ("Reverse " ++ ip ++ " to " ++ fqdn ++
           " succesfully set ! - (dry run mode)") true), [ev0])
      else
        match env.postRes with
        | .ok _ =>
          (.ok (okMsg ("Reverse " ++ ip ++ " to " ++ fqdn ++ " succesfully set !") true),
           [ev0, .call (.post (reversePostPath ip)
              ["ipReverse=" ++ ip, "reverse=" ++ fqdn])])
        | .error e =>
          (.ok (apiFail e),
           [ev0, .call (.post (reversePostPath ip)
              ["ipReverse=" ++ ip, "reverse=" ++ fqdn])])

/-! ## list (`OVHModule.list_service`) -/

/-- Gateway responses for the two list sub-services. -/
structure ListEnv where
  dedicated : Except String (List String)
  serverReverse : String → Except String String
  templatesRes : Except String (List String)

/-- The per-server detail loop of `list_dedicated`. -/
def listDedLoop (env : ListEnv) : List String → Except String (List String) × List Event
  | [] => (.ok [], [])
  | s :: rest =>
    match env.serverReverse s with
    | .error e => (.error e, [.call (.get (serverPath s))])
    | .ok rev =>
      let x := listDedLoop env rest
      (Except.map (fun l => (rev ++ "=" ++ s) :: l) x.1,
       .call (.get (serverPath s)) :: x.2)

/-- `OVHModule.list_dedicated`. -/
def list_dedicated (env : ListEnv) : HRes :=
  let ev0 := Event.call (.get "/dedicated/server")
  match env.dedicated with
  | .error e => (.ok (apiFail e), [ev0])
  | .ok servers =>
    let x := listDedLoop env servers
    match x.1 with
    | .error e => (.ok (apiFail e), ev0 :: x.2)
    | .ok l => (.ok (okObjects l), ev0 :: x.2)

/-- `OVHModule.list_templates`. -/
def list_templates (env : ListEnv) : HRes :=
  let ev0 := Event.call (.get "/me/installationTemplate")
  match env.templatesRes with
  | .error e => (.ok (apiFail e), [ev0])
  | .ok tpls => (.ok (okObjects (tpls.filter (fun t => ¬ strHas t "tmp-mgr"))), [ev0])

/-- `OVHModule.list_service`. -/
def list_service (env : ListEnv) (name : String) : HRes :=
  if name = "dedicated" then list_dedicated env
  else if name = "templates" then list_templates env
  else (.ok (failOut (name ++ " not supported for \x27list\x27 service")), [])

/-! ## boot (`OVHModule.change_boot_dedicated`) -/

/-- The `boot` module argument (argspec choices `harddisk`/`rescue`). -/
inductive BootChoice where
  | harddisk : BootChoice
  | rescue : BootChoice
deriving DecidableEq, Repr

/-- The `bootid = {'harddisk': 1, 'rescue': 1122}` mapping. -/
def bootIdOf : BootChoice → Nat
  | .harddisk => 1
  | .rescue => 1122

def BootChoice.render : BootChoice → String
  | .harddisk => "harddisk"
  | .rescue => "rescue"

/-- Gateway responses consumed by `change_boot_dedicated`. -/
structure BootEnv where
  bootId : Except String Nat
  putRes : Except String Unit
  rebootRes : Except String Unit

/-- `OVHModule.change_boot_dedicated`. -/
def change_boot_dedicated (env : BootEnv) (checkMode : Bool) (name : String)
    (boot : BootChoice) (force_reboot : Bool) : HRes :=
  if checkMode then
    (.ok (okMsg (name ++ " is now set to boot on " ++ boot.render ++
       ". Reboot in progress... - (dry run mode)") true), [])
  else
    let ev0 := Event.call (.get (serverPath name))
    match env.bootId with
    | .error e => (.ok (apiFail e), [ev0])
    | .ok current =>
      if bootIdOf boot ≠ current then
        match env.putRes with
        | .error e =>
          (.ok (apiFail e),
           [ev0, .call (.put (serverPath name) ["bootId=" ++ toString (bootIdOf boot)])])
        | .ok _ =>
          (.ok (okMsg (name ++ " is now set to boot on " ++ boot.render ++ ".") true),
           [ev0, .call (.put (serverPath name) ["bootId=" ++ toString (bootIdOf boot)])])
      else if force_reboot then
        match env.rebootRes with
        | .error e => (.ok (apiFail e), [ev0, .call (.post (rebootPath name) [])])
        | .ok _ =>
          (.ok (okMsg (name ++ " is now rebooting on " ++ boot.render) true),
           [ev0, .call (.post (rebootPath name) [])])
      else
        (.ok (okMsg (name ++ " already configured for boot on " ++ boot.render) false),
         [ev0])

/-! ## template (`OVHModule.generate_template`) -/

/-- A disk group of a hardware RAID controller (`{'names': [...]}`). -/
structure DiskGroup where
  names : List String
deriving DecidableEq, Repr

/-- A hardware RAID controller of the `hardwareRaidProfile` answer. -/
structure Controller where
  disks : List DiskGroup
deriving DecidableEq, Repr

/-- All disk names across all disk groups of a controller. -/
def controllerDisks (c : Controller) : List String := (c.disks.map DiskGroup.names).flatten

/-- One partition entry of the template description (already parsed from
its `ast.literal_eval` dict; `raid = none` models a dict without the
`'raid'` key). -/
structure PartEntry where
  filesystem : String
  mountpoint : String
  raid : Option String
  size : String
  step : String
  ptype : String
deriving DecidableEq, Repr

/-- The validated template description read from the YAML file (the file
ingestion itself is an out-of-scope collaborator). -/
structure TemplateConf where
  templateName : String
  baseTemplateName : String
  defaultLanguage : String
  customHostname : String
  postInstallationScriptLink : String
  postInstallationScriptReturn : String
  sshKeyName : String
  useDistributionKernel : String
  partitionScheme : String
  partitionSchemePriority : String
  isHardwareRaid : Bool
  raidMode : String
  partitionEntries : List PartEntry
deriving DecidableEq, Repr

/-- Gateway responses consumed by `generate_template`.  The hardware RAID
profile get is *not* wrapped in try/except: its failure is an uncaught
exception. -/
structure TemplateEnv where
  raidProfile : Except String (List Controller)
  deleteRes : Except String Unit
  postShell : Except String Unit
  putCustomization : Except String Unit
  postScheme : Except String Unit
  postRaid : Except String Unit
  postPartition : Nat → Except String Unit
  postCheck : Except String Unit

/-- Request body of the hardware RAID grouping post. -/
def raidBody (disks : List String) (conf : TemplateConf) : List String :=
  ["disks=" ++ joinWith "," disks, "mode=" ++ conf.raidMode,
   "name=" ++ conf.partitionScheme, "step=1"]

/-- Body of one partition post (with or without the `raid` key). -/
def partitionBody (p : PartEntry) : List String :=
  ["filesystem=" ++ p.filesystem, "mountpoint=" ++ p.mountpoint] ++
  (match p.raid with
   | some r => ["raid=" ++ r]
   | none => []) ++
  ["size=" ++ p.size, "step=" ++ p.step, "type=" ++ p.ptype]

/-- The per-partition post loop. -/
def partitionLoop (env : TemplateEnv) (conf : TemplateConf) :
    Nat → List PartEntry → Except String Unit × List Event
  | _, [] => (.ok (), [])
  | k, p :: rest =>
    let ev := Event.call (.post (tplPartitionPath conf.templateName conf.partitionScheme)
      (partitionBody p))
    match env.postPartition k with
    | .error e => (.error e, [ev])
    | .ok _ =>
      let x := partitionLoop env conf (k + 1) rest
      (x.1, ev :: x.2)

/-- The controller-count gate message (the source never calls `.format`
on it, so the `\x7b0\x7d` placeholder is emitted verbatim). -/
def hwControllerMsg : String :=
  "Failed to call OVH API: \x7b0\x7d Code can\x27t handle more than one controller when using Hardware Raid setups"

/-- The hardware RAID step of template creation.  Result `(some r, tr)`
terminates the handler with result `r` after the events `tr`; `(none,
tr)` continues to the partition posts.  The profile get is unwrapped, so
its failure — like the `IndexError` of an empty `disks` list — is an
uncaught exception.  Only `disks[0]['names']`, the first disk group of
the single controller, is submitted. -/
def hwRaidStep (env : TemplateEnv) (conf : TemplateConf) (name : String) :
    Option (Except String Outcome) × List Event :=
  if conf.isHardwareRaid then
    let evGet := Event.call (.get (hwRaidProfilePath name))
    match env.raidProfile with
    | .error e => (some (.error e), [evGet])
    | .ok ctrls =>
      if ctrls.length ≠ 1 then (some (.ok (failOut hwControllerMsg)), [evGet])
      else
        match ctrls.head? with
        | none => (some (.error "IndexError: list index out of range"), [evGet])
        | some c =>
          match c.disks.head? with
          | none => (some (.error "IndexError: list index out of range"), [evGet])
          | some g =>
            let evRaid := Event.call (.post
              (tplRaidPath conf.templateName conf.partitionScheme) (raidBody g.names conf))
            match env.postRaid with
            | .error e => (some (.ok (apiFail e)), [evGet, evRaid])
            | .ok _ => (none, [evGet, evRaid])
  else (none, [])

/-- `OVHModule.generate_template`.  The `template` argument is the source
file path; the parsed `conf` is supplied directly, since file ingestion
is an out-of-scope collaborator.  Check-mode returns before the file is
even read, so `conf` is immaterial there (and the check-mode message is
the source's literal `"%s ... %s"` string: the source calls `.format` on
a `%`-style string, which substitutes nothing). -/
def generate_template (env : TemplateEnv) (checkMode : Bool) (name template state : String)
    (conf : TemplateConf) : HRes :=
  if template = "" then (.ok (failOut "No template parameter given"), [])
  else if checkMode then
    (.ok (okMsg "%s succesfully %s on ovh API - (dry run mode)" true), [])
  else if state ≠ "present" ∧ state ≠ "absent" then
    (.ok (failOut ("State " ++ state ++ " not supported. Only present/absent")), [])
  else if state = "absent" then
    let ev := Event.call (.delete (tplPath conf.templateName))
    match env.deleteRes with
    | .error e => (.ok (apiFail e), [ev])
    | .ok _ =>
      (.ok (okMsg ("Template " ++ conf.templateName ++ " succesfully deleted") true), [ev])
  else
    let evShell := Event.call (.post "/me/installationTemplate"
      ["baseTemplateName=" ++ conf.baseTemplateName,
       "defaultLanguage=" ++ conf.defaultLanguage,
       "name=" ++ conf.templateName])
    match env.postShell with
    | .error e => (.ok (apiFail e), [evShell])
    | .ok _ =>
      let evPut := Event.call (.put (tplPath conf.templateName)
        ["customHostname=" ++ conf.customHostname,
         "postInstallationScriptLink=" ++ conf.postInstallationScriptLink,
         "postInstallationScriptReturn=" ++ conf.postInstallationScriptReturn,
         "sshKeyName=" ++ conf.sshKeyName,
         "useDistributionKernel=" ++ conf.useDistributionKernel,
         "defaultLanguage=" ++ conf.defaultLanguage,
         "templateName=" ++ conf.templateName])
      match env.putCustomization with
      | .error e => (.ok (apiFail e), [evShell, evPut])
      | .ok _ =>
        let evScheme := Event.call (.post
          (tplSchemePath conf.templateName conf.partitionScheme)
          ["name=" ++ conf.partitionScheme,
           "priority=" ++ conf.partitionSchemePriority])
        match env.postScheme with
        | .error e => (.ok (apiFail e), [evShell, evPut, evScheme])
        | .ok _ =>
          let pre := [evShell, evPut, evScheme]
          match hwRaidStep env conf name with
          | (some r, tr) => (r, pre ++ tr)
          | (none, tr) =>
            match partitionLoop env conf 0 conf.partitionEntries with
            | (.error e, ptr) => (.ok (apiFail e), pre ++ tr ++ ptr)
            | (.ok _, ptr) =>
              let evCheck := Event.call (.post (tplCheckPath conf.templateName) [])
              match env.postCheck with
              | .error e => (.ok (apiFail e), pre ++ tr ++ ptr ++ [evCheck])
              | .ok _ =>
                (.ok (okMsg ("Template " ++ conf.templateName ++ " succesfully created")
                   true), pre ++ tr ++ ptr ++ [evCheck])

/-! ## vrack (`OVHModule.change_vrack`) -/

/-- One entry of the `dedicatedServerInterfaceDetails` answer. -/
structure VrackInterfaceDetail where
  dedicatedServer : String
  dedicatedServerInterface : String
deriving DecidableEq, Repr

/-- Gateway responses consumed by `change_vrack`. -/
structure VrackEnv where
  vni : Except String (List String)
  interfaceDetails : Except String (List VrackInterfaceDetail)
  legacyServers : Except String (List String)
  postInterfaceRes : Except String String
  postLegacyRes : Except String String
  deleteInterfaceRes : Except String String
  deleteLegacyRes : Except String String

/-- First interface-details entry registered for `name`, if any
(the source's `for new_server in ...: if ... == name` scan). -/
def findDetail (name : String) (l : List VrackInterfaceDetail) :
    Option VrackInterfaceDetail :=
  l.find? (fun d => d.dedicatedServer = name)

/-- `OVHModule.change_vrack`. -/
def change_vrack (env : VrackEnv) (checkMode : Bool) (name state vrack : String) : HRes :=
  if vrack = "" then
    (.ok (failOut "Please give a vrack name to add/remove your server"), [])
  else if state ≠ "present" ∧ state ≠ "absent" then
    (.ok (okMsg "Vrack service only uses present/absent state" false), [])
  else if checkMode then
    (.ok (okMsg (name ++ " succesfully " ++ state ++ " on " ++ vrack ++
       " - (dry run mode)") true), [])
  else if state = "present" then
    let evVni := Event.call (.get (vniPath name))
    match env.vni with
    | .error e => (.ok (apiFail e), [evVni])
    | .ok interfaces =>
      if interfaces.length ≠ 0 then
        -- New generation: the interface probe answered non-empty
        let evDet := Event.call (.get (vrackInterfaceDetailsPath vrack))
        match env.interfaceDetails with
        | .error e => (.ok (apiFail e), [evVni, evDet])
        | .ok details =>
          match findDetail name details with
          | some _ =>
            (.ok (okMsg (name ++ " is already registered on " ++ vrack) false),
             [evVni, evDet])
          | none =>
            let evPost := Event.call (.post (vrackInterfacePath vrack)
              ["dedicatedServerInterface=" ++ joinWith "" interfaces])
            match env.postInterfaceRes with
            | .error e => (.ok (apiFail e), [evVni, evDet, evPost])
            | .ok res => (.ok (okContents res true), [evVni, evDet, evPost])
      else
        -- Old generation: empty probe, the legacy membership list decides
        let evLeg := Event.call (.get (vrackLegacyPath vrack))
        match env.legacyServers with
        | .error e => (.ok (apiFail e), [evVni, evLeg])
        | .ok servers =>
          if name ∈ servers then
            (.ok (okMsg (name ++ " is already registered on " ++ vrack) false),
             [evVni, evLeg])
          else
            let evPost := Event.call (.post (vrackLegacyPath vrack)
              ["dedicatedServer=" ++ name])
            match env.postLegacyRes with
            | .error e => (.ok (apiFail e), [evVni, evLeg, evPost])
            | .ok res => (.ok (okContents res true), [evVni, evLeg, evPost])
  else
    -- state == 'absent'
    let evDet := Event.call (.get (vrackInterfaceDetailsPath vrack))
    let evLeg := Event.call (.get (vrackLegacyPath vrack))
    match env.interfaceDetails with
    | .error e => (.ok (apiFail e), [evDet])
    | .ok details =>
      match env.legacyServers with
      | .error e => (.ok (apiFail e), [evDet, evLeg])
      | .ok servers =>
        match findDetail name details with
        | some d =>
          let evDel := Event.call (.delete (vrackInterfacePath vrack ++ "/" ++
            d.dedicatedServerInterface))
          match env.deleteInterfaceRes with
          | .error e => (.ok (apiFail e), [evDet, evLeg, evDel])
          | .ok res => (.ok (okContents res true), [evDet, evLeg, evDel])
        | none =>
          if name ∈ servers then
            let evDel := Event.call (.delete (vrackLegacyPath vrack ++ "/" ++ name))
            match env.deleteLegacyRes with
            | .error e => (.ok (apiFail e), [evDet, evLeg, evDel])
            | .ok res => (.ok (okContents res true), [evDet, evLeg, evDel])
          else
            (.ok (okMsg ("No " ++ name ++ " in " ++ vrack) false), [evDet, evLeg])

/-- Concrete environment for the C1 witness: two A-records for `www`,
neither carrying the desired target. -/
def c1wEnv : DnsEnv where
  records := .ok [1, 2]
  record := fun _ => .ok ⟨"www", "192.0.2.9"⟩
  refreshRes := .ok ()
  putRes := fun _ => .ok ()
  postRes := .ok "created"
  deleteRes := fun _ => .ok ()

/-- Concrete environment refuting C1 as stated: two records match the
selector and the *first* one already carries the desired target. -/
def c1cEnv : DnsEnv where
  records := .ok [1, 2]
  record := fun ind =>
    if ind = 1 then .ok ⟨"www", "192.0.2.1"⟩ else .ok ⟨"www", "192.0.2.2"⟩
  refreshRes := .ok ()
  putRes := fun _ => .ok ()
  postRes := .ok "created"
  deleteRes := fun _ => .ok ()

def c2dnsEnv : DnsEnv where
  records := .ok [5]
  record := fun _ => .ok ⟨"www", "192.0.2.1"⟩
  refreshRes := .ok ()
  putRes := fun _ => .ok ()
  postRes := .ok "created"
  deleteRes := fun _ => .ok ()

def c2bootEnv : BootEnv where
  bootId := .ok 1
  putRes := .ok ()
  rebootRes := .ok ()

def c2vrackEnv : VrackEnv where
  vni := .ok []
  interfaceDetails := .ok []
  legacyServers := .ok ["sv1"]
  postInterfaceRes := .ok "r"
  postLegacyRes := .ok "r"
  deleteInterfaceRes := .ok "r"
  deleteLegacyRes := .ok "r"

def c2revEnv : ReverseEnv where
  lookup := .found "sv1.example.com."
  postRes := .ok ()

def c2monEnv : MonEnv where
  state := fun _ => .ok true
  putRes := fun _ => .ok ()

def c2cEnv : MonEnv where
  state := fun _ => .ok true
  putRes := fun _ => .ok ()

def c3dnsEnv : DnsEnv where
  records := .ok []
  record := fun _ => .ok ⟨"", ""⟩
  refreshRes := .ok ()
  putRes := fun _ => .ok ()
  postRes := .ok "r"
  deleteRes := fun _ => .ok ()

def c3macEnv : MacEnv where
  nic := .ok ["aa:bb"]

def c3termEnv : TerminateEnv where
  terminateRes := .ok ()

def c3statusEnv : StatusEnv where
  tasklist := fun _ => .ok [1]
  task := fun _ => .ok "doing"
  progress := fun _ => .ok ()

def c3installEnv : InstallEnv where
  compatibleTemplates := .ok ["debian12"]
  sshKeys := .ok ["k"]
  postRes := .ok ()

def c3monEnv : MonEnv where
  state := fun _ => .ok false
  putRes := fun _ => .ok ()

def c3revEnv : ReverseEnv where
  lookup := .found "other.example.com."
  postRes := .ok ()

def c3listEnv : ListEnv where
  dedicated := .ok ["ns1"]
  serverReverse := fun _ => .ok "sv1"
  templatesRes := .ok ["t1"]

def c3bootEnv : BootEnv where
  bootId := .ok 1
  putRes := .ok ()
  rebootRes := .ok ()

def c3tplEnv : TemplateEnv where
  raidProfile := .ok []
  deleteRes := .ok ()
  postShell := .ok ()
  putCustomization := .ok ()
  postScheme := .ok ()
  postRaid := .ok ()
  postPartition := fun _ => .ok ()
  postCheck := .ok ()

def c3tplConf : TemplateConf where
  templateName := "tpl"
  baseTemplateName := "debian12_64"
  defaultLanguage := "en"
  customHostname := "h"
  postInstallationScriptLink := ""
  postInstallationScriptReturn := ""
  sshKeyName := "k"
  useDistributionKernel := "True"
  partitionScheme := "scheme"
  partitionSchemePriority := "1"
  isHardwareRaid := false
  raidMode := "raid1"
  partitionEntries := []

def c3vrackEnv : VrackEnv where
  vni := .ok []
  interfaceDetails := .ok []
  legacyServers := .ok []
  postInterfaceRes := .ok "r"
  postLegacyRes := .ok "r"
  deleteInterfaceRes := .ok "r"
  deleteLegacyRes := .ok "r"

def c4statusEnv : StatusEnv where
  tasklist := fun _ => .ok [3]
  task := fun _ => .ok "doing"
  progress := fun _ => .error "boom"

def c4tplEnv : TemplateEnv where
  raidProfile := .error "boom"
  deleteRes := .ok ()
  postShell := .ok ()
  putCustomization := .ok ()
  postScheme := .ok ()
  postRaid := .ok ()
  postPartition := fun _ => .ok ()
  postCheck := .ok ()

def c4tplConf : TemplateConf where
  templateName := "tpl"
  baseTemplateName := "debian12_64"
  defaultLanguage := "en"
  customHostname := "h"
  postInstallationScriptLink := ""
  postInstallationScriptReturn := ""
  sshKeyName := "k"
  useDistributionKernel := "True"
  partitionScheme := "scheme"
  partitionSchemePriority := "1"
  isHardwareRaid := true
  raidMode := "raid1"
  partitionEntries := []

def c4dnsEnv : DnsEnv where
  records := .error "boom"
  record := fun _ => .ok ⟨"", ""⟩
  refreshRes := .ok ()
  putRes := fun _ => .ok ()
  postRes := .ok "r"
  deleteRes := fun _ => .ok ()

def c4bootEnv : BootEnv where
  bootId := .error "boom"
  putRes := .ok ()
  rebootRes := .ok ()

def c4monEnv : MonEnv where
  state := fun _ => .ok false
  putRes := fun _ => .error "boom"

def c4statusEnv2 : StatusEnv where
  tasklist := fun _ => .error "boom"
  task := fun _ => .ok "doing"
  progress := fun _ => .ok ()

def c4vrackEnv : VrackEnv where
  vni := .error "boom"
  interfaceDetails := .ok []
  legacyServers := .ok []
  postInterfaceRes := .ok "r"
  postLegacyRes := .ok "r"
  deleteInterfaceRes := .ok "r"
  deleteLegacyRes := .ok "r"

def c4cMacEnv : MacEnv where
  nic := .error "boom"

def c5Env : StatusEnv where
  tasklist := fun _ => .ok [7]
  task := fun _ => .ok "doing"
  progress := fun _ => .ok ()

def c5cEnv : StatusEnv where
  tasklist := fun _ => .ok [7]
  task := fun _ => .ok "doing"
  progress := fun _ => .ok ()

/-- Is this event the task-list get that opens one poll attempt? -/
def Event.isTaskListGet (name : String) : Event → Bool
  | .call (.get p) => decide (p = taskListPath name)
  | _ => false

/-- Number of poll attempts (task-list status fetches) in a trace. -/
def fetchCount (name : String) (tr : List Event) : Nat :=
  (tr.filter (Event.isTaskListGet name)).length

def c6Env : StatusEnv where
  tasklist := fun _ => .ok [7]
  task := fun j => if j ≤ 2 then .ok "doing" else .ok "done"
  progress := fun _ => .ok ()

def c6cEnv : StatusEnv where
  tasklist := fun _ => .ok [7]
  task := fun j => if j ≤ 1 then .ok "doing" else .ok "done"
  progress := fun _ => .ok ()

def c7Env : VrackEnv where
  vni := .ok []
  interfaceDetails := .ok []
  legacyServers := .ok ["sv1"]
  postInterfaceRes := .ok "r"
  postLegacyRes := .ok "r"
  deleteInterfaceRes := .ok "r"
  deleteLegacyRes := .ok "r"

/-- Every sleep of a trace is immediately preceded by a put. -/
def putBeforeSleeps : List Event → Bool
  | [] => true
  | .call (.put _ _) :: .sleep :: rest => putBeforeSleeps rest
  | .sleep :: _ => false
  | _ :: rest => putBeforeSleeps rest

def c8Env : MonEnv where
  state := fun i => if i = 1 then .ok true else .ok false
  putRes := fun _ => .ok ()

/-- Is this event the hardware-RAID grouping post of template `t`,
scheme `s`? -/
def Event.isRaidPost (t s : String) : Event → Bool
  | .call (.post p _) => decide (p = tplRaidPath t s)
  | _ => false

/-- The RAID grouping posts of a trace. -/
def raidPosts (t s : String) (tr : List Event) : List Event :=
  tr.filter (Event.isRaidPost t s)

def c9g1 : DiskGroup := ⟨["d0", "d1"]⟩

def c9g2 : DiskGroup := ⟨["d2", "d3"]⟩

/-- A single controller carrying *two* disk groups. -/
def c9ctrl : Controller := ⟨[c9g1, c9g2]⟩

def c9conf : TemplateConf where
  templateName := "tpl"
  baseTemplateName := "debian12_64"
  defaultLanguage := "en"
  customHostname := "h"
  postInstallationScriptLink := ""
  postInstallationScriptReturn := ""
  sshKeyName := "k"
  useDistributionKernel := "True"
  partitionScheme := "scheme"
  partitionSchemePriority := "1"
  isHardwareRaid := true
  raidMode := "raid1"
  partitionEntries := []

/-- Profile with two controllers (triggers the gate). -/
def c9wEnvA : TemplateEnv where
  raidProfile := .ok [c9ctrl, c9ctrl]
  deleteRes := .ok ()
  postShell := .ok ()
  putCustomization := .ok ()
  postScheme := .ok ()
  postRaid := .ok ()
  postPartition := fun _ => .ok ()
  postCheck := .ok ()

/-- Profile with exactly one controller holding two disk groups. -/
def c9wEnvB : TemplateEnv where
  raidProfile := .ok [c9ctrl]
  deleteRes := .ok ()
  postShell := .ok ()
  putCustomization := .ok ()
  postScheme := .ok ()
  postRaid := .ok ()
  postPartition := fun _ => .ok ()
  postCheck := .ok ()

def c10aEnv : BootEnv where
  bootId := .ok 1122
  putRes := .ok ()
  rebootRes := .ok ()

def c10bEnv : BootEnv where
  bootId := .ok 1
  putRes := .ok ()
  rebootRes := .ok ()

/-! # Claims and supporting lemmas -/

/-- If every candidate record fetch succeeds and none equals the desired
`(name, ip)` pair, the present-branch scan falls through with no match
and performs no mutating call. -/
theorem dnsScan_nomatch (env : DnsEnv) (domain name ip : String) (l : List Nat)
    (hall : ∀ ind ∈ l, ∃ r, env.record ind = .ok r ∧
      ¬(r.subDomain = name ∧ r.target = ip)) :
    (dnsScan env domain name ip l).1 = .nomatch ∧
      mutCalls (dnsScan env domain name ip l).2 = [] := by
  induction l with
  | nil => simp [dnsScan, mutCalls]
  | cons ind rest ih =>
    obtain ⟨r, hr, hnm⟩ := hall ind (by simp)
    have ih' := ih (fun j hj => hall j (by simp [hj]))
    simp only [dnsScan, hr]
    rw [if_neg hnm]
    simpa [mutCalls, Event.isMutating] using ih'

/-- C1 (amended): for the DNS kind with `state=present`, when the zone
query returns two or more record ids and every per-id fetch succeeds with
a record that does *not* already carry the desired `(subdomain, target)`
pair, reconciliation fails with the ambiguity message and issues zero
mutating gateway calls.  (When one of the records already equals the
desired pair the handler instead short-circuits to a `changed=false`
success — see the counterexample — still with zero mutating calls.) -/
theorem C1_dns_ambiguity_no_mutation (env : DnsEnv) (domain ip name : String)
    (l : List Nat)
    (hd : domain ≠ "") (hn : name ≠ "refresh") (hip : ip ≠ "")
    (hrec : env.records = .ok l) (hlen : 2 ≤ l.length)
    (hall : ∀ ind ∈ l, ∃ r, env.record ind = .ok r ∧
      ¬(r.subDomain = name ∧ r.target = ip)) :
    (change_dns env false domain ip name "present").1 =
        .ok (failOut (dnsAmbiguousMsg name domain)) ∧
      mutCalls (change_dns env false domain ip name "present").2 = [] := by
  cases l with
  | nil => simp at hlen
  | cons ind0 rest =>
    obtain ⟨hscan, hmut⟩ := dnsScan_nomatch env domain name ip (ind0 :: rest) hall
    have hlen' : (ind0 :: rest).length > 1 := by omega
    simp only [change_dns, if_neg hd, if_neg hn, Bool.false_eq_true, if_false, hrec,
      if_neg hip, reduceIte]
    rw [hscan] at *
    simp only [hscan, hlen', if_pos, mutCalls, List.filter] at *
    constructor
    · simp [hscan, hlen']
    · simpa [mutCalls, Event.isMutating] using hmut

/-- Witness for C1: the amended theorem applied at a concrete input. -/
theorem C1_dns_ambiguity_no_mutation_witness :
    (change_dns c1wEnv false "example.com" "192.0.2.1" "www" "present").1 =
        .ok (failOut (dnsAmbiguousMsg "www" "example.com")) ∧
      mutCalls (change_dns c1wEnv false "example.com" "192.0.2.1" "www" "present").2 =
        [] :=
  C1_dns_ambiguity_no_mutation c1wEnv "example.com" "192.0.2.1" "www" [1, 2]
    (by decide) (by decide) (by decide) rfl (by decide)
    (fun ind _ => ⟨⟨"www", "192.0.2.9"⟩, rfl, by decide⟩)

/-- Counterexample to C1 as stated: the remote zone query returns two
records matching the `(domain, subdomain, fieldType=A)` selector, yet for
desired target `192.0.2.1` (the target of one of them) reconciliation
does *not* fail — the per-record short-circuit precedes the ambiguity
gate, so it reports a `changed=false` success.  So the failure is not
returned "for every value of the desired target IP". -/
theorem C1_dns_ambiguity_counterexample :
    (change_dns c1cEnv false "example.com" "192.0.2.1" "www" "present").1 =
        .ok (okMsg "www is already registered in domain example.com" false) ∧
      mutCalls (change_dns c1cEnv false "example.com" "192.0.2.1" "www" "present").2 =
        [] := by
  decide

/-- C2 (amended): when the remote state already equals the desired state
at the first fetch — the situation after a first successful
reconciliation — the DNS, boot, vrack and reverse kinds report
`changed=false`; the monitoring kind, however, reports `changed=true`
(with an "after 1 time(s)" message) even though it mutated nothing, so
the spec's idempotence property fails for monitoring. -/
theorem C2_second_run_changed_flags :
    (∀ (env : DnsEnv) (domain ip name : String) (ind : Nat) (rest : List Nat),
      domain ≠ "" → name ≠ "refresh" → ip ≠ "" →
      env.records = .ok (ind :: rest) → env.record ind = .ok ⟨name, ip⟩ →
      (change_dns env false domain ip name "present").1 =
        .ok (okMsg (name ++ " is already registered in domain " ++ domain) false)) ∧
    (∀ (env : BootEnv) (name : String) (boot : BootChoice),
      env.bootId = .ok (bootIdOf boot) →
      (change_boot_dedicated env false name boot false).1 =
        .ok (okMsg (name ++ " already configured for boot on " ++ boot.render) false)) ∧
    (∀ (env : VrackEnv) (name vrack : String) (ls : List String),
      vrack ≠ "" → env.vni = .ok [] → env.legacyServers = .ok ls → name ∈ ls →
      (change_vrack env false name "present" vrack).1 =
        .ok (okMsg (name ++ " is already registered on " ++ vrack) false)) ∧
    (∀ (env : ReverseEnv) (name domain ip : String),
      domain ≠ "" → ip ≠ "" → env.lookup = .found (name ++ "." ++ domain ++ ".") →
      (change_reverse env false name domain ip).1 =
        .ok (okMsg "Reverse already set" false)) ∧
    (∀ (env : MonEnv) (name : String) (max_retry sleep : Nat),
      name ≠ "" → 2 ≤ max_retry → env.state 1 = .ok true →
      (change_monitoring env false name "present" max_retry sleep).1 =
        .ok (okMsg (monMsg true name 1) true)) := by
  refine ⟨?_, ?_, ?_, ?_, ?_⟩
  · intro env domain ip name ind rest hd hn hip hrec hr
    simp only [change_dns, if_neg hd, if_neg hn, hrec, if_neg hip]
    simp [dnsScan, hr]
  · intro env name boot hb
    simp [change_boot_dedicated, hb]
  · intro env name vrack ls hv hvni hleg hmem
    simp only [change_vrack, if_neg hv]
    simp [hvni, hleg, hmem]
  · intro env name domain ip hd hip hlk
    simp only [change_reverse, if_neg hd, if_neg hip]
    simp [hlk]
  · intro env name max_retry sleep hn hmr hst
    obtain ⟨k, hk⟩ : ∃ k, max_retry - 1 = k + 1 := ⟨max_retry - 2, by omega⟩
    simp only [change_monitoring, if_neg hn]
    simp [hk, monLoop, hst]

/-- Witness for C2: the amended theorem applied at concrete inputs. -/
theorem C2_second_run_changed_flags_witness :
    (change_dns c2dnsEnv false "example.com" "192.0.2.1" "www" "present").1 =
        .ok (okMsg "www is already registered in domain example.com" false) ∧
      (change_boot_dedicated c2bootEnv false "ns1" .harddisk false).1 =
        .ok (okMsg "ns1 already configured for boot on harddisk" false) ∧
      (change_vrack c2vrackEnv false "sv1" "present" "pn-1").1 =
        .ok (okMsg "sv1 is already registered on pn-1" false) ∧
      (change_reverse c2revEnv false "sv1" "example.com" "192.0.2.1").1 =
        .ok (okMsg "Reverse already set" false) ∧
      (change_monitoring c2monEnv false "sv1" "present" 10 10).1 =
        .ok (okMsg (monMsg true "sv1" 1) true) :=
  ⟨C2_second_run_changed_flags.1 c2dnsEnv "example.com" "192.0.2.1" "www" 5 []
      (by decide) (by decide) (by decide) rfl rfl,
   C2_second_run_changed_flags.2.1 c2bootEnv "ns1" .harddisk rfl,
   C2_second_run_changed_flags.2.2.1 c2vrackEnv "sv1" "pn-1" ["sv1"]
      (by decide) rfl rfl (by decide),
   C2_second_run_changed_flags.2.2.2.1 c2revEnv "sv1" "example.com" "192.0.2.1"
      (by decide) (by decide) rfl,
   C2_second_run_changed_flags.2.2.2.2 c2monEnv "sv1" 10 10
      (by decide) (by omega) rfl⟩

/-- Counterexample to C2 as stated: for the monitoring kind with the
remote flag already equal to the desired boolean at the first fetch (the
second of two identical successive reconciliations), the outcome carries
`changed=true`, not the claimed `changed=false`. -/
theorem C2_second_run_changed_flags_counterexample :
    (change_monitoring c2cEnv false "sv1" "present" 10 10).1 =
      .ok (okMsg "Monitoring activated on sv1 after 1 time(s)" true) := by
  decide

/-- The per-server detail loop of `list_dedicated` performs only gets. -/
theorem listDedLoop_no_mut (env : ListEnv) (l : List String) :
    mutCalls (listDedLoop env l).2 = [] := by
  induction l with
  | nil => simp [listDedLoop, mutCalls]
  | cons s rest ih =>
    rcases h : env.serverReverse s with e | rev <;>
      simp_all [listDedLoop, h, mutCalls, Event.isMutating]

/-- C3 (as claimed): with the simulate (check-mode) flag set, every
handler issues zero post/put/delete gateway calls, and each handler that
reaches its dry-run branch (a non-noop decision) reports `changed=true`. -/
theorem C3_check_mode_no_mutation :
    (∀ (env : DnsEnv) (domain ip name state : String),
      mutCalls (change_dns env true domain ip name state).2 = []) ∧
    (∀ (env : MacEnv) (name lt : String), mutCalls (get_mac env name lt).2 = []) ∧
    (∀ (env : TerminateEnv) (name : String),
      mutCalls (terminate_server env true name).2 = []) ∧
    (∀ (env : StatusEnv) (name : String) (mr sl : Nat),
      mutCalls (get_status_install env true name mr sl).2 = []) ∧
    (∀ (env : InstallEnv) (n t h s p : String) (u : Bool),
      mutCalls (launch_install env true n t h s p u).2 = []) ∧
    (∀ (env : MonEnv) (name state : String) (mr sl : Nat),
      mutCalls (change_monitoring env true name state mr sl).2 = []) ∧
    (∀ (env : ReverseEnv) (n d i : String),
      mutCalls (change_reverse env true n d i).2 = []) ∧
    (∀ (env : ListEnv) (name : String), mutCalls (list_service env name).2 = []) ∧
    (∀ (env : BootEnv) (name : String) (b : BootChoice) (f : Bool),
      mutCalls (change_boot_dedicated env true name b f).2 = []) ∧
    (∀ (env : TemplateEnv) (n t s : String) (conf : TemplateConf),
      mutCalls (generate_template env true n t s conf).2 = []) ∧
    (∀ (env : VrackEnv) (n s v : String),
      mutCalls (change_vrack env true n s v).2 = []) ∧
    (∀ (env : DnsEnv) (d i n s : String), d ≠ "" → n ≠ "refresh" →
      (change_dns env true d i n s).1 =
        .ok (okMsg ("DNS succesfully " ++ s ++ " on " ++ n ++ "s - (dry run mode)") true)) ∧
    (∀ (env : TerminateEnv) (n : String), n ≠ "" →
      (terminate_server env true n).1 =
        .ok (okMsg ("Terminate " ++ n ++
          " is done, please confirm via the email sent - (dry run mode)") true)) ∧
    (∀ (env : InstallEnv) (n t h s p : String) (u : Bool) (ts : List String),
      n ≠ "" → t ≠ "" → h ≠ "" → env.compatibleTemplates = .ok ts → t ∈ ts →
      (launch_install env true n t h s p u).1 =
        .ok (okMsg ("Installation in progress on " ++ n ++ " ! - (dry run mode)") true)) ∧
    (∀ (env : MonEnv) (n : String) (mr sl : Nat), n ≠ "" →
      (change_monitoring env true n "present" mr sl).1 =
        .ok (okMsg ("Monitoring present on " ++ n ++ " - (dry run mode)") true)) ∧
    (∀ (env : ReverseEnv) (n d i v : String), d ≠ "" → i ≠ "" →
      env.lookup = .found v → v ≠ n ++ "." ++ d ++ "." →
      (change_reverse env true n d i).1 =
        .ok (okMsg ("Reverse " ++ i ++ " to " ++ (n ++ "." ++ d ++ ".") ++
          " succesfully set ! - (dry run mode)") true)) ∧
    (∀ (env : BootEnv) (n : String) (b : BootChoice) (f : Bool),
      (change_boot_dedicated env true n b f).1 =
        .ok (okMsg (n ++ " is now set to boot on " ++ b.render ++
          ". Reboot in progress... - (dry run mode)") true)) ∧
    (∀ (env : TemplateEnv) (n t s : String) (conf : TemplateConf), t ≠ "" →
      (generate_template env true n t s conf).1 =
        .ok (okMsg "%s succesfully %s on ovh API - (dry run mode)" true)) ∧
    (∀ (env : VrackEnv) (n v : String), v ≠ "" →
      (change_vrack env true n "present" v).1 =
        .ok (okMsg (n ++ " succesfully " ++ "present" ++ " on " ++ v ++
          " - (dry run mode)") true)) := by
  refine ⟨?_, ?_, ?_, ?_, ?_, ?_, ?_, ?_, ?_, ?_, ?_, ?_, ?_, ?_, ?_, ?_, ?_, ?_, ?_⟩
  · intro env domain ip name state
    by_cases hd : domain = "" <;> by_cases hn : name = "refresh" <;>
      simp [change_dns, hd, hn, mutCalls]
  · intro env name lt
    rcases h : env.nic with e | r <;> simp [get_mac, h, mutCalls, Event.isMutating]
  · intro env name
    by_cases h : name = "" <;> simp [terminate_server, h, mutCalls]
  · intro env name mr sl
    by_cases h : name = "" <;> simp [get_status_install, h, mutCalls]
  · intro env n t h s p u
    by_cases h1 : n = ""
    · simp [launch_install, h1, mutCalls]
    · by_cases h2 : t = ""
      · simp [launch_install, h1, h2, mutCalls]
      · by_cases h3 : h = ""
        · simp [launch_install, h1, h2, h3, mutCalls]
        · rcases h4 : env.compatibleTemplates with e | tpls
          · simp [launch_install, h1, h2, h3, h4, mutCalls, Event.isMutating]
          · by_cases h5 : t ∈ tpls <;>
              simp [launch_install, h1, h2, h3, h4, h5, mutCalls, Event.isMutating]
  · intro env name state mr sl
    by_cases h1 : name = ""
    · simp [change_monitoring, h1, mutCalls]
    · by_cases h2 : state = ""
      · simp [change_monitoring, h1, h2, mutCalls]
      · by_cases h3 : state = "present" <;> by_cases h4 : state = "absent" <;>
          simp [change_monitoring, h1, h2, h3, h4, mutCalls]
  · intro env n d i
    by_cases h1 : d = ""
    · simp [change_reverse, h1, mutCalls]
    · by_cases h2 : i = ""
      · simp [change_reverse, h1, h2, mutCalls]
      · rcases h3 : env.lookup with v | _ | e <;>
          simp only [change_reverse, h1, h2, h3, if_neg, if_false] <;>
          (try split) <;> simp [mutCalls, Event.isMutating]
  · intro env name
    by_cases h1 : name = "dedicated"
    · rcases h2 : env.dedicated with e | servers
      · simp [list_service, list_dedicated, h1, h2, mutCalls, Event.isMutating]
      · have hm := listDedLoop_no_mut env servers
        rcases h3 : (listDedLoop env servers).1 with e | lres <;>
          simp_all [list_service, list_dedicated, h1, h2, h3, mutCalls,
            Event.isMutating]
    · by_cases h4 : name = "templates"
      · rcases h5 : env.templatesRes with e | tpls <;>
          simp [list_service, list_templates, h1, h4, h5, mutCalls, Event.isMutating]
      · simp [list_service, h1, h4, mutCalls]
  · intro env name b f
    simp [change_boot_dedicated, mutCalls]
  · intro env n t s conf
    by_cases h : t = "" <;> simp [generate_template, h, mutCalls]
  · intro env n s v
    by_cases h1 : v = ""
    · simp [change_vrack, h1, mutCalls]
    · by_cases h2 : s = "present" <;> by_cases h3 : s = "absent" <;>
        simp [change_vrack, h1, h2, h3, mutCalls]
  · intro env d i n s hd hn
    simp [change_dns, hd, hn]
  · intro env n hn
    simp [terminate_server, hn]
  · intro env n t h s p u ts h1 h2 h3 h4 h5
    simp [launch_install, h1, h2, h3, h4, h5]
  · intro env n mr sl hn
    simp [change_monitoring, hn]
  · intro env n d i v h1 h2 h3 h4
    simp [change_reverse, h1, h2, h3, h4]
  · intro env n b f
    simp [change_boot_dedicated]
  · intro env n t s conf ht
    simp [generate_template, ht]
  · intro env n v hv
    simp [change_vrack, hv]

/-- Witness for C3: every conjunct applied at a concrete input. -/
theorem C3_check_mode_no_mutation_witness :
    mutCalls (change_dns c3dnsEnv true "example.com" "192.0.2.1" "www" "present").2 = [] ∧
    mutCalls (get_mac c3macEnv "ns1" "private").2 = [] ∧
    mutCalls (terminate_server c3termEnv true "ns1").2 = [] ∧
    mutCalls (get_status_install c3statusEnv true "ns1" 10 10).2 = [] ∧
    mutCalls (launch_install c3installEnv true "ns1" "debian12" "h" "" "" false).2 = [] ∧
    mutCalls (change_monitoring c3monEnv true "ns1" "present" 10 10).2 = [] ∧
    mutCalls (change_reverse c3revEnv true "sv1" "example.com" "192.0.2.1").2 = [] ∧
    mutCalls (list_service c3listEnv "dedicated").2 = [] ∧
    mutCalls (change_boot_dedicated c3bootEnv true "ns1" .rescue true).2 = [] ∧
    mutCalls (generate_template c3tplEnv true "ns1" "tpl.yml" "present" c3tplConf).2 = [] ∧
    mutCalls (change_vrack c3vrackEnv true "sv1" "present" "pn-1").2 = [] ∧
    (change_dns c3dnsEnv true "example.com" "192.0.2.1" "www" "present").1 =
      .ok (okMsg ("DNS succesfully " ++ "present" ++ " on " ++ "www" ++
        "s - (dry run mode)") true) ∧
    (terminate_server c3termEnv true "ns1").1 =
      .ok (okMsg ("Terminate " ++ "ns1" ++
        " is done, please confirm via the email sent - (dry run mode)") true) ∧
    (launch_install c3installEnv true "ns1" "debian12" "h" "" "" false).1 =
      .ok (okMsg ("Installation in progress on " ++ "ns1" ++ " ! - (dry run mode)") true) ∧
    (change_monitoring c3monEnv true "ns1" "present" 10 10).1 =
      .ok (okMsg ("Monitoring present on " ++ "ns1" ++ " - (dry run mode)") true) ∧
    (change_reverse c3revEnv true "sv1" "example.com" "192.0.2.1").1 =
      .ok (okMsg ("Reverse " ++ "192.0.2.1" ++ " to " ++
        ("sv1" ++ "." ++ "example.com" ++ ".") ++
        " succesfully set ! - (dry run mode)") true) ∧
    (change_boot_dedicated c3bootEnv true "ns1" .rescue true).1 =
      .ok (okMsg ("ns1" ++ " is now set to boot on " ++ BootChoice.rescue.render ++
        ". Reboot in progress... - (dry run mode)") true) ∧
    (generate_template c3tplEnv true "ns1" "tpl.yml" "present" c3tplConf).1 =
      .ok (okMsg "%s succesfully %s on ovh API - (dry run mode)" true) ∧
    (change_vrack c3vrackEnv true "sv1" "present" "pn-1").1 =
      .ok (okMsg ("sv1" ++ " succesfully " ++ "present" ++ " on " ++ "pn-1" ++
        " - (dry run mode)") true) :=
  ⟨C3_check_mode_no_mutation.1 c3dnsEnv "example.com" "192.0.2.1" "www" "present",
   C3_check_mode_no_mutation.2.1 c3macEnv "ns1" "private",
   C3_check_mode_no_mutation.2.2.1 c3termEnv "ns1",
   C3_check_mode_no_mutation.2.2.2.1 c3statusEnv "ns1" 10 10,
   C3_check_mode_no_mutation.2.2.2.2.1 c3installEnv "ns1" "debian12" "h" "" "" false,
   C3_check_mode_no_mutation.2.2.2.2.2.1 c3monEnv "ns1" "present" 10 10,
   C3_check_mode_no_mutation.2.2.2.2.2.2.1 c3revEnv "sv1" "example.com" "192.0.2.1",
   C3_check_mode_no_mutation.2.2.2.2.2.2.2.1 c3listEnv "dedicated",
   C3_check_mode_no_mutation.2.2.2.2.2.2.2.2.1 c3bootEnv "ns1" .rescue true,
   C3_check_mode_no_mutation.2.2.2.2.2.2.2.2.2.1 c3tplEnv "ns1" "tpl.yml" "present"
     c3tplConf,
   C3_check_mode_no_mutation.2.2.2.2.2.2.2.2.2.2.1 c3vrackEnv "sv1" "present" "pn-1",
   C3_check_mode_no_mutation.2.2.2.2.2.2.2.2.2.2.2.1 c3dnsEnv "example.com" "192.0.2.1"
     "www" "present" (by decide) (by decide),
   C3_check_mode_no_mutation.2.2.2.2.2.2.2.2.2.2.2.2.1 c3termEnv "ns1" (by decide),
   C3_check_mode_no_mutation.2.2.2.2.2.2.2.2.2.2.2.2.2.1 c3installEnv "ns1" "debian12"
     "h" "" "" false ["debian12"] (by decide) (by decide) (by decide) rfl (by decide),
   C3_check_mode_no_mutation.2.2.2.2.2.2.2.2.2.2.2.2.2.2.1 c3monEnv "ns1" 10 10
     (by decide),
   C3_check_mode_no_mutation.2.2.2.2.2.2.2.2.2.2.2.2.2.2.2.1 c3revEnv "sv1"
     "example.com" "192.0.2.1" "other.example.com." (by decide) (by decide) rfl
     (by decide),
   C3_check_mode_no_mutation.2.2.2.2.2.2.2.2.2.2.2.2.2.2.2.2.1 c3bootEnv "ns1" .rescue
     true,
   C3_check_mode_no_mutation.2.2.2.2.2.2.2.2.2.2.2.2.2.2.2.2.2.1 c3tplEnv "ns1"
     "tpl.yml" "present" c3tplConf (by decide),
   C3_check_mode_no_mutation.2.2.2.2.2.2.2.2.2.2.2.2.2.2.2.2.2.2 c3vrackEnv "sv1"
     "pn-1" (by decide)⟩

/-- C4 (amended): gateway errors raised inside the try/except-wrapped
remote calls are caught and surfaced as failure outcomes carrying the
error message (zone query, boot state get, monitoring put, task fetch,
vrack interface probe shown here); but the NIC fetch of `get_mac`, the
install-progress status fetch of the status poll, and the hardware RAID
profile fetch of template generation are *not* wrapped and propagate as
unhandled exceptions instead of failure outcomes. -/
theorem C4_gateway_error_surfacing :
    (∀ (name lt e : String), (get_mac ⟨.error e⟩ name lt).1 = .error e) ∧
    (∀ (env : StatusEnv) (name e st : String) (l : List Nat) (mr sl : Nat),
      name ≠ "" → 2 ≤ mr → env.tasklist 1 = .ok l → l ≠ [] →
      env.task 1 = .ok st → strHas st "done" = false → env.progress 1 = .error e →
      (get_status_install env false name mr sl).1 = .error e) ∧
    (∀ (env : TemplateEnv) (conf : TemplateConf) (name template e : String),
      template ≠ "" → conf.isHardwareRaid = true → env.postShell = .ok () →
      env.putCustomization = .ok () → env.postScheme = .ok () →
      env.raidProfile = .error e →
      (generate_template env false name template "present" conf).1 = .error e) ∧
    (∀ (env : DnsEnv) (domain ip name st e : String),
      domain ≠ "" → name ≠ "refresh" → env.records = .error e →
      (change_dns env false domain ip name st).1 = .ok (apiFail e)) ∧
    (∀ (env : BootEnv) (name e : String) (b : BootChoice) (f : Bool),
      env.bootId = .error e →
      (change_boot_dedicated env false name b f).1 = .ok (apiFail e)) ∧
    (∀ (env : MonEnv) (name e : String) (mr sl : Nat),
      name ≠ "" → 2 ≤ mr → env.state 1 = .ok false → env.putRes 1 = .error e →
      (change_monitoring env false name "present" mr sl).1 = .ok (apiFail e)) ∧
    (∀ (env : StatusEnv) (name e : String) (mr sl : Nat),
      name ≠ "" → 2 ≤ mr → env.tasklist 1 = .error e →
      (get_status_install env false name mr sl).1 = .ok (apiFail e)) ∧
    (∀ (env : VrackEnv) (name vrack e : String),
      vrack ≠ "" → env.vni = .error e →
      (change_vrack env false name "present" vrack).1 = .ok (apiFail e)) := by
  refine ⟨?_, ?_, ?_, ?_, ?_, ?_, ?_, ?_⟩
  · intro name lt e
    simp [get_mac]
  · intro env name e st l mr sl hn hmr htl hl ht hdone hp
    obtain ⟨k, hk⟩ : ∃ k, mr - 1 = k + 1 := ⟨mr - 2, by omega⟩
    simp [get_status_install, hn, hk, statusLoop, htl, hl, ht, hdone, hp]
  · intro env conf name template e ht hraid hsh hcu hsc hrp
    simp [generate_template, ht, hwRaidStep, hraid, hsh, hcu, hsc, hrp]
  · intro env domain ip name st e hd hn hrec
    simp [change_dns, hd, hn, hrec]
  · intro env name e b f hb
    simp [change_boot_dedicated, hb]
  · intro env name e mr sl hn hmr hst hput
    obtain ⟨k, hk⟩ : ∃ k, mr - 1 = k + 1 := ⟨mr - 2, by omega⟩
    simp [change_monitoring, hn, hk, monLoop, hst, hput]
  · intro env name e mr sl hn hmr htl
    obtain ⟨k, hk⟩ : ∃ k, mr - 1 = k + 1 := ⟨mr - 2, by omega⟩
    simp [get_status_install, hn, hk, statusLoop, htl]
  · intro env name vrack e hv hvni
    simp [change_vrack, hv, hvni]

/-- Witness for C4: every conjunct applied at a concrete input. -/
theorem C4_gateway_error_surfacing_witness :
    (get_mac ⟨.error "boom"⟩ "ns1" "private").1 = .error "boom" ∧
    (get_status_install c4statusEnv false "ns1" 10 10).1 = .error "boom" ∧
    (generate_template c4tplEnv false "ns1" "tpl.yml" "present" c4tplConf).1 =
      .error "boom" ∧
    (change_dns c4dnsEnv false "example.com" "192.0.2.1" "www" "present").1 =
      .ok (apiFail "boom") ∧
    (change_boot_dedicated c4bootEnv false "ns1" .harddisk false).1 =
      .ok (apiFail "boom") ∧
    (change_monitoring c4monEnv false "ns1" "present" 10 10).1 =
      .ok (apiFail "boom") ∧
    (get_status_install c4statusEnv2 false "ns1" 10 10).1 = .ok (apiFail "boom") ∧
    (change_vrack c4vrackEnv false "sv1" "present" "pn-1").1 = .ok (apiFail "boom") :=
  ⟨C4_gateway_error_surfacing.1 "ns1" "private" "boom",
   C4_gateway_error_surfacing.2.1 c4statusEnv "ns1" "boom" "doing" [3] 10 10
     (by decide) (by omega) rfl (by decide) rfl (by decide) rfl,
   C4_gateway_error_surfacing.2.2.1 c4tplEnv c4tplConf "ns1" "tpl.yml" "boom"
     (by decide) rfl rfl rfl rfl rfl,
   C4_gateway_error_surfacing.2.2.2.1 c4dnsEnv "example.com" "192.0.2.1" "www"
     "present" "boom" (by decide) (by decide) rfl,
   C4_gateway_error_surfacing.2.2.2.2.1 c4bootEnv "ns1" "boom" .harddisk false rfl,
   C4_gateway_error_surfacing.2.2.2.2.2.1 c4monEnv "ns1" "boom" 10 10
     (by decide) (by omega) rfl rfl,
   C4_gateway_error_surfacing.2.2.2.2.2.2.1 c4statusEnv2 "ns1" "boom" 10 10
     (by decide) (by omega) rfl,
   C4_gateway_error_surfacing.2.2.2.2.2.2.2 c4vrackEnv "sv1" "pn-1" "boom"
     (by decide) rfl⟩

/-- Counterexample to C4 as stated: an API error raised by the NIC fetch
of `get_mac` is *not* surfaced as a failure outcome — the handler result
is the uncaught propagated exception (`Except.error`), since the source
wraps this get in no try/except. -/
theorem C4_gateway_error_surfacing_counterexample :
    (get_mac c4cMacEnv "ns1" "private").1 = .error "boom" := by
  decide

/-- A status-loop run whose every attempt sees a successful, non-terminal
fetch round exhausts its fuel: it fails citing the last executed index
`i + fuel - 1` and sleeps exactly `fuel` times. -/
theorem statusLoop_exhaust (env : StatusEnv) (name : String) (sleep : Nat) :
    ∀ (fuel i : Nat), 2 ≤ i + fuel →
    (∀ j, i ≤ j → j < i + fuel → ∃ l st, env.tasklist j = .ok l ∧ l ≠ [] ∧
      env.task j = .ok st ∧ strHas st "done" = false ∧ env.progress j = .ok ()) →
    (statusLoop env name sleep fuel i).1 =
        .ok (failOut (exhaustMsg (i + fuel - 1) sleep)) ∧
      sleepCount (statusLoop env name sleep fuel i).2 = fuel := by
  intro fuel
  induction fuel with
  | zero =>
    intro i hi hgood
    have h1 : i ≠ 1 := by omega
    simp [statusLoop, h1, sleepCount]
  | succ f ih =>
    intro i hi hgood
    obtain ⟨l, st, htl, hl, ht, hdone, hp⟩ := hgood i (le_refl i) (by omega)
    have hrec := ih (i + 1) (by omega) (fun j hj1 hj2 => hgood j (by omega) (by omega))
    have harith : i + 1 + f - 1 = i + (f + 1) - 1 := by omega
    rw [harith] at hrec
    simp only [statusLoop, htl, ht, hdone, hp, hl, if_neg, Bool.false_eq_true, if_false]
    constructor
    · exact hrec.1
    · simpa [sleepCount, Event.isSleep] using hrec.2

/-- C5 (amended): if every status fetch succeeds but never yields a
status containing "done", polling with `max_retry = N ≥ 2` performs
exactly `N - 1` delay sleeps and then fails with a message citing `N - 1`
(the last loop index, not `N`) times the delay. -/
theorem C5_poll_exhaustion (env : StatusEnv) (name : String) (N sleep : Nat)
    (hn : name ≠ "") (hN : 2 ≤ N)
    (hgood : ∀ j, 1 ≤ j → j < N → ∃ l st, env.tasklist j = .ok l ∧ l ≠ [] ∧
      env.task j = .ok st ∧ strHas st "done" = false ∧ env.progress j = .ok ()) :
    (get_status_install env false name N sleep).1 =
        .ok (failOut (exhaustMsg (N - 1) sleep)) ∧
      sleepCount (get_status_install env false name N sleep).2 = N - 1 := by
  have h := statusLoop_exhaust env name sleep (N - 1) 1 (by omega)
    (fun j hj1 hj2 => hgood j hj1 (by omega))
  have e1 : 1 + (N - 1) - 1 = N - 1 := by omega
  rw [e1] at h
  simpa [get_status_install, hn] using h

/-- Witness for C5: with a stub that always answers "doing" and
`max_retry = 4`, the poll sleeps 3 times and fails citing 3 × 10. -/
theorem C5_poll_exhaustion_witness :
    (get_status_install c5Env false "ns1" 4 10).1 =
        .ok (failOut (exhaustMsg 3 10)) ∧
      sleepCount (get_status_install c5Env false "ns1" 4 10).2 = 3 :=
  C5_poll_exhaustion c5Env "ns1" 4 10 (by decide) (by omega)
    (fun j _ _ => ⟨[7], "doing", rfl, by decide, rfl, by decide, rfl⟩)

/-- Counterexample to C5 as stated: with `max_retry = N = 3` and a stub
that never reaches a terminal status, the failure message cites `2 = N-1`
attempts ("about 2 x 10 seconds"), not the claimed `N = 3`; the loop
`range(1, max_retry)` runs `N - 1` times and reports its last index. -/
theorem C5_poll_exhaustion_counterexample :
    (get_status_install c5cEnv false "ns1" 3 10).1 =
        .ok (failOut "Max wait time reached, about 2 x 10 seconds") ∧
      sleepCount (get_status_install c5cEnv false "ns1" 3 10).2 = 2 := by
  decide

/-- The task-detail path differs from the task-list path. -/
theorem taskPath_ne_taskListPath (name : String) (m : Nat) :
    ¬ taskPath name m = taskListPath name := by
  intro h
  have hlen := congrArg String.length h
  rw [taskPath, String.length_append, String.length_append] at hlen
  have e1 : String.length "/" = 1 := by decide
  rw [e1] at hlen
  omega

/-- The install-progress path differs from the task-list path. -/
theorem installStatusPath_ne_taskListPath (name : String) :
    ¬ installStatusPath name = taskListPath name := by
  intro h
  have hlen := congrArg String.length h
  rw [installStatusPath, taskListPath, String.length_append, String.length_append]
    at hlen
  have e1 : String.length "/install/status" = 15 := by decide
  have e2 : String.length "/task" = 5 := by decide
  rw [e1, e2] at hlen
  omega

/-- A status-loop run that sees `k` successful non-terminal attempts and
then a terminal status (one containing "done") on attempt `i + k`, with
enough fuel left, succeeds with `changed=false`, performs `k + 1` status
fetches and exactly `k` sleeps — none after the terminal fetch. -/
theorem statusLoop_success (env : StatusEnv) (name : String) (sleep : Nat)
    (stT : String) (lT : List Nat) :
    ∀ (k i fuel : Nat), k + 1 ≤ fuel →
    (∀ j, i ≤ j → j < i + k → ∃ l st, env.tasklist j = .ok l ∧ l ≠ [] ∧
      env.task j = .ok st ∧ strHas st "done" = false ∧ env.progress j = .ok ()) →
    env.tasklist (i + k) = .ok lT → lT ≠ [] →
    env.task (i + k) = .ok stT → strHas stT "done" = true →
    (statusLoop env name sleep fuel i).1 = .ok (okMsg (stT ++ ": ") false) ∧
      sleepCount (statusLoop env name sleep fuel i).2 = k ∧
      fetchCount name (statusLoop env name sleep fuel i).2 = k + 1 := by
  intro k
  induction k with
  | zero =>
    intro i fuel hfuel hgood htl hl ht hdone
    obtain ⟨f, hf⟩ : ∃ f, fuel = f + 1 := ⟨fuel - 1, by omega⟩
    subst hf
    simp only [Nat.add_zero] at htl ht
    simp [statusLoop, htl, hl, ht, hdone, sleepCount, fetchCount, Event.isSleep,
      Event.isTaskListGet, taskPath_ne_taskListPath name (listMax lT)]
  | succ p ih =>
    intro i fuel hfuel hgood htl hl ht hdone
    obtain ⟨f, hf⟩ : ∃ f, fuel = f + 1 := ⟨fuel - 1, by omega⟩
    subst hf
    obtain ⟨l, st, htl0, hl0, ht0, hdone0, hp0⟩ := hgood i (le_refl i) (by omega)
    have harith : i + 1 + p = i + (p + 1) := by omega
    have hrec := ih (i + 1) f (by omega)
      (fun j hj1 hj2 => hgood j (by omega) (by omega))
      (by rw [harith]; exact htl) hl (by rw [harith]; exact ht) hdone
    simp only [statusLoop, htl0, ht0, hdone0, hp0, hl0, if_neg, Bool.false_eq_true,
      if_false]
    refine ⟨hrec.1, ?_, ?_⟩
    · simpa [sleepCount, Event.isSleep] using hrec.2.1
    · have := hrec.2.2
      simp [fetchCount, Event.isTaskListGet, Event.isSleep,
        taskPath_ne_taskListPath name (listMax l),
        installStatusPath_ne_taskListPath name] at this ⊢
      omega

/-- C6 (amended): if the status fetch is non-terminal ("doing") for the
first `k` attempts and terminal (contains "done") on attempt `k + 1`,
polling succeeds — with exactly `k + 1` status fetches, `k` sleeps (none
after the terminal fetch) and no failure — provided `max_retry ≥ k + 2`;
`max_retry = k + 1` (the claim's `max_retry > k`) is *not* enough,
because `range(1, max_retry)` runs only `max_retry - 1` attempts. -/
theorem C6_poll_termination (env : StatusEnv) (name stT : String) (lT : List Nat)
    (k N sleep : Nat) (hn : name ≠ "") (hN : k + 2 ≤ N)
    (hgood : ∀ j, 1 ≤ j → j ≤ k → ∃ l st, env.tasklist j = .ok l ∧ l ≠ [] ∧
      env.task j = .ok st ∧ strHas st "done" = false ∧ env.progress j = .ok ())
    (htl : env.tasklist (k + 1) = .ok lT) (hl : lT ≠ [])
    (ht : env.task (k + 1) = .ok stT) (hdone : strHas stT "done" = true) :
    (get_status_install env false name N sleep).1 = .ok (okMsg (stT ++ ": ") false) ∧
      sleepCount (get_status_install env false name N sleep).2 = k ∧
      fetchCount name (get_status_install env false name N sleep).2 = k + 1 := by
  have harith : 1 + k = k + 1 := by omega
  have h := statusLoop_success env name sleep stT lT k 1 (N - 1) (by omega)
    (fun j hj1 hj2 => hgood j hj1 (by omega))
    (by rw [harith]; exact htl) hl (by rw [harith]; exact ht) hdone
  simpa [get_status_install, hn] using h

/-- Witness for C6: "doing" on attempts 1 and 2, "done" on attempt 3,
`max_retry = 5 ≥ 2 + 2`: success after 3 fetches and 2 sleeps. -/
theorem C6_poll_termination_witness :
    (get_status_install c6Env false "ns1" 5 10).1 = .ok (okMsg "done: " false) ∧
      sleepCount (get_status_install c6Env false "ns1" 5 10).2 = 2 ∧
      fetchCount "ns1" (get_status_install c6Env false "ns1" 5 10).2 = 3 :=
  C6_poll_termination c6Env "ns1" "done" [7] 2 5 10 (by decide) (by omega)
    (fun j hj1 hj2 => ⟨[7], "doing", rfl, by decide, by
      have : j ≤ 2 := hj2
      simp [c6Env, this], by decide, rfl⟩)
    (by simp [c6Env]) (by decide) (by simp [c6Env]) (by decide)

/-- Counterexample to C6 as stated: the fetch stub answers "doing" on
call 1 (`k = 1`) and "done" on call 2, and `max_retry = 2 > k` — yet the
poll does *not* succeed after `k + 1` fetches: `range(1, 2)` runs a
single attempt, so the loop exhausts and fails before ever seeing the
terminal status. -/
theorem C6_poll_termination_counterexample :
    (get_status_install c6cEnv false "ns1" 2 10).1 =
      .ok (failOut "Max wait time reached, about 1 x 10 seconds") := by
  decide

/-- C7 (as claimed): for the vrack kind with `state=present`, when the
per-interface probe returns an empty list, the comparator consults the
legacy per-server membership list: if the server is there it reports
`changed=false` with no mutating call; otherwise it issues exactly one
post to the legacy `dedicatedServer` endpoint — the empty probe alone is
never taken as proof of non-registration. -/
theorem C7_vrack_legacy_fallback (env : VrackEnv) (name vrack : String)
    (ls : List String) (hv : vrack ≠ "")
    (hvni : env.vni = .ok []) (hleg : env.legacyServers = .ok ls) :
    (name ∈ ls →
      (change_vrack env false name "present" vrack).1 =
          .ok (okMsg (name ++ " is already registered on " ++ vrack) false) ∧
        mutCalls (change_vrack env false name "present" vrack).2 = []) ∧
    (¬ name ∈ ls →
      mutCalls (change_vrack env false name "present" vrack).2 =
        [.call (.post (vrackLegacyPath vrack) ["dedicatedServer=" ++ name])]) := by
  constructor
  · intro hmem
    simp [change_vrack, hv, hvni, hleg, hmem, mutCalls, Event.isMutating]
  · intro hmem
    rcases hpost : env.postLegacyRes with e | r <;>
      simp [change_vrack, hv, hvni, hleg, hmem, hpost, mutCalls, Event.isMutating]

/-- Witness for C7: empty interface probe; `sv1` is on the legacy list
(no mutation, `changed=false`), `sv2` is not (one legacy post). -/
theorem C7_vrack_legacy_fallback_witness :
    ((change_vrack c7Env false "sv1" "present" "pn-1").1 =
        .ok (okMsg ("sv1" ++ " is already registered on " ++ "pn-1") false) ∧
      mutCalls (change_vrack c7Env false "sv1" "present" "pn-1").2 = []) ∧
    mutCalls (change_vrack c7Env false "sv2" "present" "pn-1").2 =
      [.call (.post (vrackLegacyPath "pn-1") ["dedicatedServer=" ++ "sv2"])] :=
  ⟨(C7_vrack_legacy_fallback c7Env "sv1" "pn-1" ["sv1"] (by decide) rfl rfl).1
     (by decide),
   (C7_vrack_legacy_fallback c7Env "sv2" "pn-1" ["sv1"] (by decide) rfl rfl).2
     (by decide)⟩

/-- In the monitoring loop, every sleep is immediately preceded by the
re-issued put of the desired flag. -/
theorem monLoop_putBeforeSleeps (env : MonEnv) (name : String) (shouldbe : Bool) :
    ∀ (fuel i : Nat), putBeforeSleeps (monLoop env name shouldbe fuel i).2 = true := by
  intro fuel
  induction fuel with
  | zero => intro i; simp [monLoop, putBeforeSleeps]
  | succ f ih =>
    intro i
    rcases hst : env.state i with e | flag
    · simp [monLoop, hst, putBeforeSleeps]
    · by_cases hfl : flag = shouldbe
      · simp [monLoop, hst, hfl, putBeforeSleeps]
      · rcases hput : env.putRes i with e | u
        · simp [monLoop, hst, hfl, hput, putBeforeSleeps]
        · simp [monLoop, hst, hfl, hput, putBeforeSleeps, ih]

/-- C8 (as claimed): in the monitoring poller every sleep is immediately
preceded by a re-issued put of the desired value (the write is
re-asserted on every mismatching attempt before waiting); and in the
spec's end-to-end example — desired absent, remote flag initially true —
the handler puts `monitoring=False` on attempt 1, observes convergence on
the fetch of attempt 2, and succeeds with `changed=true` and a message
reporting attempt count 2, with trace get, put, sleep, get. -/
theorem C8_monitoring_reassert_write :
    (∀ (env : MonEnv) (checkMode : Bool) (name state : String) (mr sl : Nat),
      putBeforeSleeps (change_monitoring env checkMode name state mr sl).2 = true) ∧
    (∀ (env : MonEnv) (name : String) (mr sl : Nat),
      name ≠ "" → 3 ≤ mr → env.state 1 = .ok true → env.state 2 = .ok false →
      env.putRes 1 = .ok () →
      (change_monitoring env false name "absent" mr sl).1 =
          .ok (okMsg (monMsg false name 2) true) ∧
        (change_monitoring env false name "absent" mr sl).2 =
          [.call (.get (serverPath name)),
           .call (.put (serverPath name) ["monitoring=" ++ pyBool false]),
           .sleep, .call (.get (serverPath name))]) := by
  constructor
  · intro env checkMode name state mr sl
    by_cases h1 : name = ""
    · simp [change_monitoring, h1, putBeforeSleeps]
    · by_cases h2 : state = ""
      · simp [change_monitoring, h1, h2, putBeforeSleeps]
      · by_cases h3 : state = "present" <;> by_cases h4 : state = "absent" <;>
          cases checkMode <;>
          simp [change_monitoring, h1, h2, h3, h4, putBeforeSleeps,
            monLoop_putBeforeSleeps]
  · intro env name mr sl hn hmr hst1 hst2 hput
    obtain ⟨k, hk⟩ : ∃ k, mr - 1 = k + 2 := ⟨mr - 3, by omega⟩
    simp [change_monitoring, hn, hk, monLoop, hst1, hst2, hput, monMsg]

/-- Witness for C8: both conjuncts at concrete inputs (remote flag true
then false, desired absent, ten retries). -/
theorem C8_monitoring_reassert_write_witness :
    putBeforeSleeps (change_monitoring c8Env false "sv1" "absent" 10 10).2 = true ∧
      (change_monitoring c8Env false "sv1" "absent" 10 10).1 =
        .ok (okMsg (monMsg false "sv1" 2) true) ∧
      (change_monitoring c8Env false "sv1" "absent" 10 10).2 =
        [.call (.get (serverPath "sv1")),
         .call (.put (serverPath "sv1") ["monitoring=" ++ pyBool false]),
         .sleep, .call (.get (serverPath "sv1"))] :=
  ⟨C8_monitoring_reassert_write.1 c8Env false "sv1" "absent" 10 10,
   (C8_monitoring_reassert_write.2 c8Env "sv1" 10 10 (by decide) (by omega)
      rfl rfl rfl).1,
   (C8_monitoring_reassert_write.2 c8Env "sv1" 10 10 (by decide) (by omega)
      rfl rfl rfl).2⟩

theorem length_tplPath (t : String) : (tplPath t).length = t.length + 25 := by
  have e1 : String.length "/me/installationTemplate/" = 25 := by decide
  rw [tplPath, String.length_append, e1]
  omega

theorem length_tplRaidPath (t s : String) :
    (tplRaidPath t s).length = t.length + s.length + 55 := by
  have e2 : String.length "/partitionScheme/" = 17 := by decide
  have e3 : String.length "/hardwareRaid" = 13 := by decide
  rw [tplRaidPath]
  simp only [String.length_append, length_tplPath, e2, e3]
  omega

theorem shellPath_ne_raidPath (t s : String) :
    ¬ ("/me/installationTemplate" : String) = tplRaidPath t s := by
  intro h
  have hlen := congrArg String.length h
  have e1 : String.length "/me/installationTemplate" = 24 := by decide
  rw [e1, length_tplRaidPath] at hlen
  omega

theorem schemePath_ne_raidPath (t s : String) :
    ¬ tplSchemePath t s = tplRaidPath t s := by
  intro h
  have hlen := congrArg String.length h
  have e1 : String.length "/partitionScheme" = 16 := by decide
  rw [tplSchemePath, String.length_append, length_tplPath, e1,
    length_tplRaidPath] at hlen
  omega

theorem partitionPath_ne_raidPath (t s : String) :
    ¬ tplPartitionPath t s = tplRaidPath t s := by
  intro h
  have hlen := congrArg String.length h
  have e2 : String.length "/partitionScheme/" = 17 := by decide
  have e3 : String.length "/partition" = 10 := by decide
  rw [tplPartitionPath] at hlen
  simp only [String.length_append, length_tplPath, e2, e3,
    length_tplRaidPath] at hlen
  omega

theorem checkPath_ne_raidPath (t s : String) :
    ¬ tplCheckPath t = tplRaidPath t s := by
  intro h
  have hlen := congrArg String.length h
  have e1 : String.length "/checkIntegrity" = 15 := by decide
  rw [tplCheckPath, String.length_append, length_tplPath,
    e1, length_tplRaidPath] at hlen
  omega

/-- The partition posts target the partition path, never the RAID path. -/
theorem partitionLoop_no_raidPost (env : TemplateEnv) (conf : TemplateConf) :
    ∀ (ps : List PartEntry) (k : Nat),
      raidPosts conf.templateName conf.partitionScheme
        (partitionLoop env conf k ps).2 = [] := by
  intro ps
  induction ps with
  | nil => intro k; simp [partitionLoop, raidPosts]
  | cons p rest ih =>
    intro k
    rcases h : env.postPartition k with e | u <;>
      simp [partitionLoop, h, raidPosts, Event.isRaidPost,
        partitionPath_ne_raidPath conf.templateName conf.partitionScheme] <;>
      try simpa [raidPosts, Event.isRaidPost] using ih (k + 1)

/-- C9 (amended): during template creation with hardware RAID requested,
a fetched profile with a number of controllers different from one is a
hard failure and the RAID grouping post is never issued; with exactly one
controller, the RAID grouping is submitted over the names of the *first
disk group* of that controller (`disks[0]['names']`) — not over all the
disks of the controller. -/
theorem C9_hw_raid_controller_gate (env : TemplateEnv) (conf : TemplateConf)
    (name template : String) (ht : template ≠ "")
    (hraid : conf.isHardwareRaid = true)
    (hsh : env.postShell = .ok ()) (hcu : env.putCustomization = .ok ())
    (hsc : env.postScheme = .ok ()) :
    (∀ ctrls, env.raidProfile = .ok ctrls → ctrls.length ≠ 1 →
      (generate_template env false name template "present" conf).1 =
          .ok (failOut hwControllerMsg) ∧
        raidPosts conf.templateName conf.partitionScheme
          (generate_template env false name template "present" conf).2 = []) ∧
    (∀ (c : Controller) (g : DiskGroup) (gs : List DiskGroup),
      env.raidProfile = .ok [c] → c.disks = g :: gs →
      raidPosts conf.templateName conf.partitionScheme
        (generate_template env false name template "present" conf).2 =
        [.call (.post (tplRaidPath conf.templateName conf.partitionScheme)
          (raidBody g.names conf))]) := by
  constructor
  · intro ctrls hpr hne
    have hstep : hwRaidStep env conf name =
        (some (.ok (failOut hwControllerMsg)),
         [.call (.get (hwRaidProfilePath name))]) := by
      simp [hwRaidStep, hraid, hpr, hne]
    simp [generate_template, ht, hsh, hcu, hsc, hstep, raidPosts, Event.isRaidPost,
      shellPath_ne_raidPath conf.templateName conf.partitionScheme,
      schemePath_ne_raidPath conf.templateName conf.partitionScheme]
  · intro c g gs hpr hdisks
    rcases hpraid : env.postRaid with e | u
    · have hstep : hwRaidStep env conf name =
          (some (.ok (apiFail e)),
           [.call (.get (hwRaidProfilePath name)),
            .call (.post (tplRaidPath conf.templateName conf.partitionScheme)
              (raidBody g.names conf))]) := by
        simp [hwRaidStep, hraid, hpr, hdisks, hpraid]
      simp [generate_template, ht, hsh, hcu, hsc, hstep, raidPosts, Event.isRaidPost,
        shellPath_ne_raidPath conf.templateName conf.partitionScheme,
        schemePath_ne_raidPath conf.templateName conf.partitionScheme]
    · have hstep : hwRaidStep env conf name =
          (none,
           [.call (.get (hwRaidProfilePath name)),
            .call (.post (tplRaidPath conf.templateName conf.partitionScheme)
              (raidBody g.names conf))]) := by
        simp [hwRaidStep, hraid, hpr, hdisks, hpraid]
      have hpl := partitionLoop_no_raidPost env conf conf.partitionEntries 0
      rcases hplr : partitionLoop env conf 0 conf.partitionEntries with ⟨plres, ptr⟩
      rw [hplr] at hpl
      simp only [raidPosts] at hpl
      rcases plres with e2 | u2 <;> rcases hchk : env.postCheck with e3 | u3 <;>
        simp [generate_template, ht, hsh, hcu, hsc, hstep, hplr, hchk, raidPosts,
          Event.isRaidPost, List.filter_append, hpl,
          shellPath_ne_raidPath conf.templateName conf.partitionScheme,
          schemePath_ne_raidPath conf.templateName conf.partitionScheme,
          checkPath_ne_raidPath conf.templateName conf.partitionScheme]

/-- Witness for C9: two controllers fail hard with no RAID post; one
controller submits the grouping over its first disk group's names. -/
theorem C9_hw_raid_controller_gate_witness :
    ((generate_template c9wEnvA false "ns1" "tpl.yml" "present" c9conf).1 =
        .ok (failOut hwControllerMsg) ∧
      raidPosts c9conf.templateName c9conf.partitionScheme
        (generate_template c9wEnvA false "ns1" "tpl.yml" "present" c9conf).2 = []) ∧
    raidPosts c9conf.templateName c9conf.partitionScheme
      (generate_template c9wEnvB false "ns1" "tpl.yml" "present" c9conf).2 =
      [.call (.post (tplRaidPath c9conf.templateName c9conf.partitionScheme)
        (raidBody c9g1.names c9conf))] :=
  ⟨(C9_hw_raid_controller_gate c9wEnvA c9conf "ns1" "tpl.yml" (by decide) rfl
      rfl rfl rfl).1 [c9ctrl, c9ctrl] rfl (by decide),
   (C9_hw_raid_controller_gate c9wEnvB c9conf "ns1" "tpl.yml" (by decide) rfl
      rfl rfl rfl).2 c9ctrl c9g1 [c9g2] rfl rfl⟩

/-- Counterexample to C9 as stated: with exactly one controller whose
profile lists two disk groups (`d0,d1` and `d2,d3`), the grouping post
carries only the first group's names `d0,d1` — not "the disks of that
controller" (`d0,d1,d2,d3`): the source reads
`result['controllers'][0]['disks'][0]['names']`. -/
theorem C9_hw_raid_controller_gate_counterexample :
    raidPosts "tpl" "scheme"
        (generate_template c9wEnvB false "ns1" "tpl.yml" "present" c9conf).2 =
        [.call (.post (tplRaidPath "tpl" "scheme") (raidBody ["d0", "d1"] c9conf))] ∧
      controllerDisks c9ctrl = ["d0", "d1", "d2", "d3"] ∧
      raidBody ["d0", "d1"] c9conf ≠ raidBody (controllerDisks c9ctrl) c9conf := by
  decide

/-- C10 (as claimed): for the boot kind outside simulate mode, a reboot
post appears in the trace only when the current bootId already equals the
desired mode's mapped id *and* `force_reboot` is true; and whenever the
fetched bootId differs from the desired id, the mutating calls are
exactly one put of the new bootId — no reboot post — irrespective of
`force_reboot`. -/
theorem C10_boot_reboot_conditions (env : BootEnv) (name : String)
    (boot : BootChoice) (force : Bool) :
    ((Event.call (.post (rebootPath name) []) ∈
        (change_boot_dedicated env false name boot force).2) →
      env.bootId = .ok (bootIdOf boot) ∧ force = true) ∧
    (∀ v, env.bootId = .ok v → v ≠ bootIdOf boot →
      mutCalls (change_boot_dedicated env false name boot force).2 =
        [.call (.put (serverPath name) ["bootId=" ++ toString (bootIdOf boot)])]) := by
  constructor
  · intro hmem
    rcases hb : env.bootId with e | v
    · simp [change_boot_dedicated, hb] at hmem
    · by_cases hv : bootIdOf boot = v
      · subst hv
        cases force
        · simp [change_boot_dedicated, hb] at hmem
        · exact ⟨rfl, rfl⟩
      · rcases hput : env.putRes with e | u <;>
          simp [change_boot_dedicated, hb, hv, hput] at hmem
  · intro v hb hv
    have hne : bootIdOf boot ≠ v := fun h => hv h.symm
    rcases hput : env.putRes with e | u <;>
      simp [change_boot_dedicated, hb, hne, hput, mutCalls, Event.isMutating]

/-- Witness for C10: bootId already `rescue` (1122) with force → the
reboot post in the trace implies the two conditions; bootId `harddisk`
(1) with desired `rescue` and force → exactly one put, no reboot. -/
theorem C10_boot_reboot_conditions_witness :
    (c10aEnv.bootId = .ok (bootIdOf .rescue) ∧ true = true) ∧
      mutCalls (change_boot_dedicated c10bEnv false "ns1" .rescue true).2 =
        [.call (.put (serverPath "ns1") ["bootId=" ++ toString (bootIdOf .rescue)])] :=
  ⟨(C10_boot_reboot_conditions c10aEnv "ns1" .rescue true).1 (by decide),
   (C10_boot_reboot_conditions c10bEnv "ns1" .rescue true).2 1 rfl (by decide)⟩
